import Mathlib

/-!
# Verification of the ADI AI Inventory System backend core

A shallow embedding, in Lean 4, of the stock-accounting and stat-consistency
engine of the `ADI-AI-Inventory-System-Backend` repository (FastAPI/SQLAlchemy,
`src/app/crud/*.py` and `src/app/models/*.py`), together with theorems settling
the testable properties stated in the design document.

Modelling conventions:
* Python floats are modelled as `ℚ` (the properties at stake are order and
  field arithmetic, not rounding of binary floats), Python ints as `ℤ`,
  nullable columns as `Option`.
* A SQLAlchemy session commit is modelled functionally: every CRUD operation
  is a function from the committed database state to either an error together
  with the unchanged state (the code wraps mutations in try/except blocks that
  roll the session back and re-raise) or the new committed state.
* `query(...).filter(...).first()` is `List.find?`; mutating the row returned
  by `.first()` is `modifyHead` below, which rewrites the first matching row.
-/

namespace Inventory

/-- Stock status enum (`StockStatus` in `src/app/models/item.py`). -/
inductive StockStatus where
  | high
  | medium
  | low
deriving DecidableEq, Repr

/-- Item type enum (`ItemType` in `src/app/models/item.py`). -/
inductive ItemType where
  | partition
  | large_item
  | container
deriving DecidableEq, Repr

/-- Unit status enum (`PartitionStatus` / `LargeItemStatus` / `ContainerStatus`
all have the same two members). -/
inductive UnitStatus where
  | available
  | withdrawn
deriving DecidableEq, Repr

/-- Python's built-in `round` to an integer: round half to even
(as used by `int(round(...))` in `src/app/crud/item.py` and
`src/app/crud/container.py`). -/
def pyRound (q : ℚ) : ℤ :=
  let f : ℤ := q.num.fdiv (q.den : ℤ)
  let frac : ℚ := q - (f : ℚ)
  if frac < 1/2 then f
  else if 1/2 < frac then f + 1
  else if f % 2 = 0 then f else f + 1

/-- `_determine_stock_status(value, low_threshold, high_threshold)` from
`src/app/crud/item.py` lines 40–51: both thresholds unset gives an unset
status; otherwise `value ≥ high` gives HIGH, then `value ≤ low` gives LOW,
otherwise MEDIUM.  (The Python `float(value or 0)` coercion is the identity
on the numeric values modelled here.) -/
def determine_stock_status (value : ℚ) (low_threshold high_threshold : Option ℚ) :
    Option StockStatus :=
  if low_threshold = none ∧ high_threshold = none then
    none
  else if (match high_threshold with
           | some hi => decide (value ≥ hi)
           | none => false) then
    some StockStatus.high
  else if (match low_threshold with
           | some lo => decide (value ≤ lo)
           | none => false) then
    some StockStatus.low
  else
    some StockStatus.medium

/-- Rewrite the first element of a list satisfying `p` using `f`, leaving the
rest unchanged.  This models mutating the single ORM row returned by
`query(...).first()`. -/
def modifyHead (p : α → Bool) (f : α → α) : List α → List α
  | [] => []
  | a :: as => if p a then f a :: as else a :: modifyHead p f as

/-- Item row (`Item` in `src/app/models/item.py`).  Only the columns the
verified CRUD paths read are modelled.

Modelled from the spec: the CRUD layer (src/app/crud/general.py,
src/app/crud/partition.py, src/app/crud/storage_section.py) reads a per-item
storage footprint `item.unit`, but the `Item` model in this revision of
`src/app/models/item.py` no longer declares that column; the design document
(§2 "Capacity Ledger", §3) describes it as the number of storage units an
item occupies in a section in the capacity-tracking schema variant.  It is
modelled here as the integer field `unit`. -/
structure ItemRow where
  id : String
  name : String
  item_type : ItemType
  unit : ℤ
deriving DecidableEq, Repr

/-- RFID tag row (`RFIDTag` in `src/app/models/rfid_tag.py`). -/
structure RfidTagRow where
  id : String
  assigned : Bool
deriving DecidableEq, Repr

/-- Storage section row (`StorageSection` in
`src/app/models/storage_section.py`); only capacity columns are modelled. -/
structure SectionRow where
  id : String
  total_units : ℤ
  used_units : ℤ
deriving DecidableEq, Repr

/-- A physical unit row.  The three unit tables (`Partition`, `LargeItem`,
`Container` in `src/app/models/`) are modelled as a single tagged row type;
each table is the sublist with the corresponding `utype`.  `quantity` is the
partition/container quantity column (absent for large items), `capacity` the
per-partition capacity the partition CRUD reads (a column of the
capacity-tracking schema variant, like `ItemRow.unit`), `items_weight` the
container weight column. -/
structure UnitRow where
  id : String
  utype : ItemType
  item_id : String
  storage_section_id : String
  rfid_tag_id : String
  quantity : Option ℤ
  capacity : Option ℤ
  items_weight : Option ℚ
  ustatus : UnitStatus
deriving DecidableEq, Repr

/-- `PartitionStat` row (`src/app/models/item.py`).  The threshold columns are
declared non-nullable but every read goes through `_determine_stock_status`,
which handles `None`; they are therefore modelled as `Option`. -/
structure PartitionStatRow where
  item_id : String
  total_quantity : Option ℤ
  total_capacity : Option ℤ
  partition_capacity : Option ℤ
  high_threshold : Option ℚ
  low_threshold : Option ℚ
  stock_status : Option StockStatus
deriving DecidableEq, Repr

/-- `LargeItemStat` row (`src/app/models/item.py`). -/
structure LargeItemStatRow where
  item_id : String
  total_quantity : Option ℤ
  high_threshold : Option ℚ
  low_threshold : Option ℚ
  stock_status : Option StockStatus
deriving DecidableEq, Repr

/-- `ContainerStat` row (`src/app/models/item.py`). -/
structure ContainerStatRow where
  item_id : String
  container_item_weight : Option ℚ
  container_weight : Option ℚ
  total_weight : Option ℚ
  total_quantity : Option ℤ
  high_threshold : Option ℚ
  low_threshold : Option ℚ
  stock_status : Option StockStatus
deriving DecidableEq, Repr

/-- `ItemStatHistory` row (`src/app/models/item.py`).  All three snapshot
value columns are `Float` in the schema, hence `Option ℚ`. -/
structure HistoryRow where
  item_id : String
  item_name : String
  item_type : ItemType
  total_quantity : Option ℚ
  total_capacity : Option ℚ
  total_weight : Option ℚ
  stock_status : Option StockStatus
  change_source : Option String
deriving DecidableEq, Repr

/-- Committed database state for the stock-accounting core. -/
structure Db where
  items : List ItemRow
  tags : List RfidTagRow
  sections : List SectionRow
  units : List UnitRow
  partition_stats : List PartitionStatRow
  largeitem_stats : List LargeItemStatRow
  container_stats : List ContainerStatRow
  history : List HistoryRow
deriving DecidableEq, Repr

/-- Errors raised by the CRUD layer (all are `ValueError`s in Python, except
`attribute_missing`, which models an `AttributeError` from accessing a column
the current model revision no longer declares). -/
inductive CrudError where
  | not_found
  | type_mismatch
  | capacity_exceeded
  | tag_unavailable
  | value_error
  | attribute_missing
deriving DecidableEq, Repr

instance {ε α : Type} [DecidableEq ε] [DecidableEq α] : DecidableEq (Except ε α) :=
  fun a b =>
    match a, b with
    | .error e, .error e' =>
        if h : e = e' then .isTrue (by rw [h]) else .isFalse (by simp [h])
    | .ok v, .ok v' =>
        if h : v = v' then .isTrue (by rw [h]) else .isFalse (by simp [h])
    | .error _, .ok _ => .isFalse (by simp)
    | .ok _, .error _ => .isFalse (by simp)

/-- The partitions of an item, `query(Partition).filter(Partition.item_id == item_id)`. -/
def partitionsOf (db : Db) (item_id : String) : List UnitRow :=
  db.units.filter (fun u => u.utype == ItemType.partition && u.item_id == item_id)

/-- The large items of an item. -/
def largeItemsOf (db : Db) (item_id : String) : List UnitRow :=
  db.units.filter (fun u => u.utype == ItemType.large_item && u.item_id == item_id)

/-- The containers of an item. -/
def containersOf (db : Db) (item_id : String) : List UnitRow :=
  db.units.filter (fun u => u.utype == ItemType.container && u.item_id == item_id)

end Inventory

namespace Inventory

/-! ## Stat Aggregator (`src/app/crud/item.py`)

`_persist_if_changed` writes only the fields that differ from their computed
values and, when at least one monitored field changed, appends an
`ItemStatHistory` snapshot (`_maybe_record_stat_history`); when nothing
changed it neither commits nor records history.  These definitions model the
committed-state effect of the success path (the failure path of the history
write is modelled separately for claim C9). -/

/-- The three per-type stat updaters share this bookkeeping: `changed` is the
`getattr(obj, k) != v` comparison of `_persist_if_changed`, `monitoredHit`
the intersection test of `_maybe_record_stat_history`.  History is recorded
only when the owning `Item` row resolves. -/
def recordHistory (items : List ItemRow) (item_id : String) (tq tc tw : Option ℚ)
    (st : Option StockStatus) (change_source : Option String) : List HistoryRow :=
  match items.find? (fun i => i.id == item_id) with
  | none => []
  | some item =>
      [{ item_id := item.id
         item_name := item.name
         item_type := item.item_type
         total_quantity := tq
         total_capacity := tc
         total_weight := tw
         stock_status := st
         change_source := change_source }]

/-- The recomputed partition stat row: `total_quantity` is the sum of the
item's partition quantities, `total_capacity` is partition count times
per-partition capacity (`int(ps.partition_capacity) if ps.partition_capacity
else 0`, which equals `getD 0`), the fill percentage is
`total_quantity / total_capacity * 100` (0 when capacity is not positive) and
the status is derived from the percentage
(`src/app/crud/item.py` lines 136–141). -/
def partition_stat_target (db : Db) (item_id : String)
    (ps : PartitionStatRow) : PartitionStatRow :=
  let parts := partitionsOf db item_id
  let total_quantity : ℤ := (parts.map (fun u => u.quantity.getD 0)).sum
  let total_capacity : ℤ := (parts.length : ℤ) * ps.partition_capacity.getD 0
  let percent : ℚ :=
    if 0 < total_capacity then
      ((total_quantity : ℚ) / (total_capacity : ℚ)) * 100
    else 0
  { ps with
    total_quantity := some total_quantity
    total_capacity := some total_capacity
    stock_status := determine_stock_status percent ps.low_threshold ps.high_threshold }

/-- `_update_partition_status` (`src/app/crud/item.py` lines 132–142):
recompute the stat row and persist via `_persist_if_changed`, which writes
exactly the fields `total_quantity`, `total_capacity`, `stock_status` when
they differ (so the per-field change test equals whole-row inequality with
the recomputed row) and then records history because those fields are
exactly the monitored set for partitions. -/
def update_partition_status (db : Db) (item_id : String)
    (change_source : Option String) : Db :=
  match db.partition_stats.find? (fun r => r.item_id == item_id) with
  | none => db
  | some ps =>
      let ps' := partition_stat_target db item_id ps
      if ps' = ps then db
      else
        { db with
          partition_stats :=
            modifyHead (fun r => r.item_id == item_id) (fun _ => ps') db.partition_stats
          history := db.history ++
            recordHistory db.items item_id (ps'.total_quantity.map (fun z => (z : ℚ)))
              (ps'.total_capacity.map (fun z => (z : ℚ))) none
              ps'.stock_status change_source }

/-- The recomputed large-item stat row: `total_quantity` is the large-item
count, the status is derived from the count
(`src/app/crud/item.py` lines 148–149). -/
def largeitem_stat_target (db : Db) (item_id : String)
    (ls : LargeItemStatRow) : LargeItemStatRow :=
  let total_qty : ℤ := (largeItemsOf db item_id).length
  { ls with
    total_quantity := some total_qty
    stock_status :=
      determine_stock_status (total_qty : ℚ) ls.low_threshold ls.high_threshold }

/-- `_update_largeitem_status` (`src/app/crud/item.py` lines 144–150);
monitored history fields `total_quantity`, `stock_status` are exactly the
written fields. -/
def update_largeitem_status (db : Db) (item_id : String)
    (change_source : Option String) : Db :=
  match db.largeitem_stats.find? (fun r => r.item_id == item_id) with
  | none => db
  | some ls =>
      let ls' := largeitem_stat_target db item_id ls
      if ls' = ls then db
      else
        { db with
          largeitem_stats :=
            modifyHead (fun r => r.item_id == item_id) (fun _ => ls') db.largeitem_stats
          history := db.history ++
            recordHistory db.items item_id (ls'.total_quantity.map (fun z => (z : ℚ)))
              none none ls'.stock_status change_source }

/-- The recomputed container stat row (`src/app/crud/item.py` lines 156–165):
`total_weight` is the sum of the item's container `items_weight`;
`total_quantity` is `int(round(total_weight / container_item_weight))` when
that weight is set and positive, and `None` otherwise (the quotient is only
computed under `container_item_weight is not None and container_item_weight >
0`, and the code then stores `computed if container_item_weight is not None
else None`, so a configured non-positive weight yields `None`); the status is
derived from the total weight. -/
def container_stat_target (db : Db) (item_id : String)
    (cs : ContainerStatRow) : ContainerStatRow :=
  let total_weight : ℚ :=
    ((containersOf db item_id).map (fun u => u.items_weight.getD 0)).sum
  let computed_total_quantity : Option ℤ :=
    match cs.container_item_weight with
    | some w => if 0 < w then some (pyRound (total_weight / w)) else none
    | none => none
  { cs with
    total_weight := some total_weight
    total_quantity :=
      match cs.container_item_weight with
      | some _ => computed_total_quantity
      | none => none
    stock_status :=
      determine_stock_status total_weight cs.low_threshold cs.high_threshold }

/-- `_update_container_status` (`src/app/crud/item.py` lines 152–166);
monitored history fields `total_weight`, `total_quantity`, `stock_status`
are exactly the written fields. -/
def update_container_status (db : Db) (item_id : String)
    (change_source : Option String) : Db :=
  match db.container_stats.find? (fun r => r.item_id == item_id) with
  | none => db
  | some cs =>
      let cs' := container_stat_target db item_id cs
      if cs' = cs then db
      else
        { db with
          container_stats :=
            modifyHead (fun r => r.item_id == item_id) (fun _ => cs') db.container_stats
          history := db.history ++
            recordHistory db.items item_id (cs'.total_quantity.map (fun z => (z : ℚ)))
              none cs'.total_weight cs'.stock_status change_source }

/-! ## Generic RFID/storage CRUD (`src/app/crud/general.py`) -/

/-- `_update_storage_section_units(db, storage_section_id, unit_change)`
(`src/app/crud/general.py` lines 50–54): add `unit_change` (positive or
negative, no clamping) to the section's `used_units`; no-op when the section
does not exist. -/
def update_storage_section_units (db : Db) (storage_section_id : String)
    (unit_change : ℤ) : Db :=
  { db with
    sections := modifyHead (fun se => se.id == storage_section_id)
      (fun se => { se with used_units := se.used_units + unit_change }) db.sections }

/-- `add_units_to_section` (`src/app/crud/storage_section.py` lines 138–144):
unclamped, uncapped addition. -/
def add_units_to_section (db : Db) (section_id : String) (units_to_add : ℤ) : Db :=
  { db with
    sections := modifyHead (fun se => se.id == section_id)
      (fun se => { se with used_units := se.used_units + units_to_add }) db.sections }

/-- `remove_units_from_section` (`src/app/crud/storage_section.py` lines
146–152): release clamped at zero, `used_units = max(0, used_units - n)`. -/
def remove_units_from_section (db : Db) (section_id : String)
    (units_to_remove : ℤ) : Db :=
  { db with
    sections := modifyHead (fun se => se.id == section_id)
      (fun se => { se with used_units := max 0 (se.used_units - units_to_remove) })
      db.sections }

/-- `create_entity_with_rfid_and_storage` (`src/app/crud/general.py` lines
56–92), used for containers and large items: validate the item exists and has
the expected type, validate the storage section exists and has capacity for
`item.unit` more units, validate the RFID tag exists and is unassigned; then,
in one committed transaction, mark the tag assigned, insert the unit row and
add `item.unit` to the section's `used_units`.  Any failure rolls back, so
an error leaves the committed state unchanged (the caller keeps `db`). -/
def create_entity_with_rfid_and_storage (db : Db) (entity : UnitRow)
    (expected_item_type : ItemType) : Except CrudError Db :=
  match db.items.find? (fun i => i.id == entity.item_id) with
  | none => .error .not_found
  | some item =>
      if item.item_type ≠ expected_item_type then .error .type_mismatch
      else
        match db.sections.find? (fun se => se.id == entity.storage_section_id) with
        | none => .error .not_found
        | some sec =>
            if sec.used_units + item.unit > sec.total_units then
              .error .capacity_exceeded
            else
              match db.tags.find? (fun t => t.id == entity.rfid_tag_id) with
              | none => .error .not_found
              | some tag =>
                  if tag.assigned then .error .tag_unavailable
                  else
                    .ok (update_storage_section_units
                      { db with
                        tags := modifyHead (fun t => t.id == entity.rfid_tag_id)
                          (fun t => { t with assigned := true }) db.tags
                        units := db.units ++ [entity] }
                      entity.storage_section_id item.unit)

/-- `delete_entity_with_rfid_and_storage` (`src/app/crud/general.py` lines
94–127): release the RFID tag (no-op when the tag row is missing), subtract
`item.unit` from the section's `used_units` — only when the owning item row
resolves (`if item:`) and without clamping — and delete the unit row.
Returns `none` when the entity does not exist. -/
def delete_entity_with_rfid_and_storage (db : Db) (ut : ItemType)
    (entity_id : String) : Option (Db × UnitRow) :=
  match db.units.find? (fun u => u.utype == ut && u.id == entity_id) with
  | none => none
  | some entity =>
      let db1 := { db with
        tags := modifyHead (fun t => t.id == entity.rfid_tag_id)
          (fun t => { t with assigned := false }) db.tags }
      let db2 :=
        match db.items.find? (fun i => i.id == entity.item_id) with
        | some item =>
            update_storage_section_units db1 entity.storage_section_id (-item.unit)
        | none => db1
      some ({ db2 with
              units := db2.units.eraseP (fun u => u.utype == ut && u.id == entity_id) },
            entity)

/-- Apply a list of `(section_id, delta)` used-unit changes, each to the
first matching section row. -/
def applySecChanges (sections : List SectionRow) (sc : List (String × ℤ)) :
    List SectionRow :=
  sc.foldl
    (fun ss (sd : String × ℤ) =>
      modifyHead (fun se => se.id == sd.1)
        (fun se => { se with used_units := se.used_units + sd.2 }) ss)
    sections

/-- The `update_data` mapping reaching `update_entity_with_rfid_and_storage`.
A `none` outer layer means the key is absent from the payload
(`model_dump(exclude_unset=True)`).  The container schema's `weight` and
`container_weight` keys never reach the row because the `setattr` loop is
guarded by `hasattr` and the `Container` model has no such columns; the
`quantity` key is produced by `update_container`'s recalculation and its
value may itself be `None` (hence the nested option). -/
structure EntityUpdateData where
  item_id : Option String
  storage_section_id : Option String
  rfid_tag_id : Option String
  quantity : Option (Option ℤ)
  ustatus : Option UnitStatus
deriving DecidableEq, Repr

/-- `update_entity_with_rfid_and_storage` (`src/app/crud/general.py` lines
129–234), used for containers and large items.  Steps, in source order:

1. return `none` when the entity does not exist;
2. when `item_id` is supplied, the new item must exist (`NotFound`) and have
   the expected type (`TypeMismatch`);
3. when `storage_section_id` is supplied, the new section must exist;
4. defaulting: a missing new item defaults to the old item, a missing new
   section to the old section; the old section's id is then read
   unconditionally (line 177), so an unresolvable section is an
   `AttributeError`;
5. same section but different item: check `used + (new.unit - old.unit) ≤
   total`, then shift `used_units` by the difference; different section:
   check the new section's capacity for `new.unit`, then release `old.unit`
   from the old section and reserve `new.unit` in the new one (both item
   rows are read here, so a missing item row is an `AttributeError`);
6. when `rfid_tag_id` is supplied and differs from the current tag: the new
   tag must exist and be unassigned (`TagUnavailable`), then the old tag is
   released and the new one assigned;
7. the quantity/capacity cross-validation block (lines 213–222) requires both
   attributes and so never fires for containers or large items;
8. apply the payload fields to the row and commit.

Any raised error rolls the transaction back, leaving the committed state
unchanged. -/
def update_entity_with_rfid_and_storage (db : Db) (ut : ItemType)
    (entity_id : String) (ud : EntityUpdateData) (expected_item_type : ItemType) :
    Except CrudError (Option (Db × UnitRow)) :=
  match db.units.find? (fun u => u.utype == ut && u.id == entity_id) with
  | none => .ok none
  | some ent => do
      let old_item? := db.items.find? (fun i => i.id == ent.item_id)
      let new_item_given? ← (match ud.item_id with
        | some nid =>
            match db.items.find? (fun i => i.id == nid) with
            | none => .error CrudError.not_found
            | some ni =>
                if ni.item_type ≠ expected_item_type then
                  .error CrudError.type_mismatch
                else .ok (some ni)
        | none => .ok (none : Option ItemRow))
      let new_sec_given? ← (match ud.storage_section_id with
        | some sid =>
            match db.sections.find? (fun se => se.id == sid) with
            | none => .error CrudError.not_found
            | some ns => .ok (some ns)
        | none => .ok (none : Option SectionRow))
      let new_item? := new_item_given?.orElse (fun _ => old_item?)
      let old_sec? := db.sections.find? (fun se => se.id == ent.storage_section_id)
      let new_sec? := new_sec_given?.orElse (fun _ => old_sec?)
      let old_sec ← (match old_sec? with
        | some s0 => Except.ok s0
        | none => .error CrudError.attribute_missing)
      let new_sec ← (match new_sec? with
        | some s1 => Except.ok s1
        | none => .error CrudError.attribute_missing)
      let sec_changes ← (if old_sec.id = new_sec.id then
          match old_item?, new_item? with
          | some oi, some ni =>
              if oi.id ≠ ni.id then
                let unit_difference := ni.unit - oi.unit
                if old_sec.used_units + unit_difference > old_sec.total_units then
                  .error CrudError.capacity_exceeded
                else .ok [(old_sec.id, unit_difference)]
              else .ok ([] : List (String × ℤ))
          | _, _ => .error CrudError.attribute_missing
        else
          match old_item?, new_item? with
          | some oi, some ni =>
              if new_sec.used_units + ni.unit > new_sec.total_units then
                .error CrudError.capacity_exceeded
              else .ok [(old_sec.id, -oi.unit), (new_sec.id, ni.unit)]
          | _, _ => .error CrudError.attribute_missing)
      let new_tag_change ← (match ud.rfid_tag_id with
        | some ntid =>
            if ntid = ent.rfid_tag_id then .ok (none : Option String)
            else
              match db.tags.find? (fun t => t.id == ntid) with
              | none => .error CrudError.not_found
              | some nt =>
                  if nt.assigned then .error CrudError.tag_unavailable
                  else .ok (some ntid)
        | none => .ok (none : Option String))
      let ent' : UnitRow := { ent with
        item_id := ud.item_id.getD ent.item_id
        storage_section_id := ud.storage_section_id.getD ent.storage_section_id
        rfid_tag_id := ud.rfid_tag_id.getD ent.rfid_tag_id
        quantity := match ud.quantity with
          | some v => v
          | none => ent.quantity
        ustatus := ud.ustatus.getD ent.ustatus }
      let sections' := applySecChanges db.sections sec_changes
      let tags' := match new_tag_change with
        | some ntid =>
            modifyHead (fun t => t.id == ntid) (fun t => { t with assigned := true })
              (modifyHead (fun t => t.id == ent.rfid_tag_id)
                (fun t => { t with assigned := false }) db.tags)
        | none => db.tags
      .ok (some
        ({ db with
           sections := sections'
           tags := tags'
           units := modifyHead (fun u => u.utype == ut && u.id == entity_id)
             (fun _ => ent') db.units },
         ent'))

/-! ## Partition CRUD (`src/app/crud/partition.py`)

The partition CRUD does not go through `general.py`; it inlines its own
validation and, notably, never calls `_update_partition_status`.  The code
reads `partition.capacity` / `db_partition.capacity`, a column of the
capacity-tracking schema variant (see `UnitRow.capacity`). -/

/-- `PartitionCreate` payload (`src/app/schemas/partition.py`) plus the
`capacity` attribute `create_partition` reads and the row id assigned by
the `before_insert` listener. -/
structure PartitionCreatePayload where
  new_id : String
  item_id : String
  storage_section_id : String
  rfid_tag_id : String
  quantity : ℤ
  capacity : ℤ
deriving DecidableEq, Repr

/-- `PartitionUpdate` payload (`src/app/schemas/partition.py`): every field is
optional and, in particular, `rfid_tag_id` is an accepted key. -/
structure PartitionUpdatePayload where
  item_id : Option String
  storage_section_id : Option String
  rfid_tag_id : Option String
  quantity : Option ℤ
  ustatus : Option UnitStatus
deriving DecidableEq, Repr

/-- `create_partition` (`src/app/crud/partition.py` lines 52–94): validate
that the item exists (its type is *not* checked), the section exists, the
RFID tag exists and is unassigned, and that the section has capacity for
`item.unit` more units; then insert the partition with `quantity = 0` (the
payload quantity is ignored) and status AVAILABLE, mark the tag assigned and
add `item.unit` to the section.  No stat recomputation is performed. -/
def create_partition (db : Db) (p : PartitionCreatePayload) : Except CrudError Db :=
  match db.items.find? (fun i => i.id == p.item_id) with
  | none => .error .not_found
  | some item =>
      match db.sections.find? (fun se => se.id == p.storage_section_id) with
      | none => .error .not_found
      | some sec =>
          match db.tags.find? (fun t => t.id == p.rfid_tag_id) with
          | none => .error .not_found
          | some tag =>
              if tag.assigned then .error .tag_unavailable
              else if sec.used_units + item.unit > sec.total_units then
                .error .capacity_exceeded
              else
                .ok { db with
                  tags := modifyHead (fun t => t.id == p.rfid_tag_id)
                    (fun t => { t with assigned := true }) db.tags
                  sections := modifyHead (fun se => se.id == p.storage_section_id)
                    (fun se => { se with used_units := se.used_units + item.unit })
                    db.sections
                  units := db.units ++
                    [{ id := p.new_id
                       utype := ItemType.partition
                       item_id := p.item_id
                       storage_section_id := p.storage_section_id
                       rfid_tag_id := p.rfid_tag_id
                       quantity := some 0
                       capacity := some p.capacity
                       items_weight := none
                       ustatus := UnitStatus.available }] }

/-- `update_partition` (`src/app/crud/partition.py` lines 96–143).  In source
order: the `capacity` key is never present (`PartitionUpdate` has no such
field), so the capacity-reduction check is dead; a supplied quantity is
checked against the row's `capacity` attribute (missing attribute would be
an `AttributeError`) and non-negativity; a storage-section change validates
the new section and the new section's capacity for `item.unit`, then moves
the units between the sections (the old-section release is unclamped); and
finally *every* payload key — `rfid_tag_id` included, despite the
docstring "RFID tag cannot be changed" — is applied to the row with no
tag-availability check and no release of the old tag. -/
def update_partition (db : Db) (partition_id : String) (p : PartitionUpdatePayload) :
    Except CrudError (Option (Db × UnitRow)) :=
  match db.units.find? (fun u => u.utype == ItemType.partition && u.id == partition_id) with
  | none => .ok none
  | some ent => do
      _ ← (match p.quantity with
        | some q =>
            match ent.capacity with
            | none => .error CrudError.attribute_missing
            | some cap =>
                if q > cap then .error CrudError.value_error
                else if q < 0 then .error CrudError.value_error
                else Except.ok ()
        | none => Except.ok ())
      let sec_changes ← (match p.storage_section_id with
        | some nsid =>
            if nsid ≠ ent.storage_section_id then
              match db.sections.find? (fun se => se.id == nsid) with
              | none => .error CrudError.not_found
              | some nsec =>
                  match db.items.find? (fun i => i.id == ent.item_id) with
                  | none => .error CrudError.attribute_missing
                  | some item =>
                      if nsec.used_units + item.unit > nsec.total_units then
                        .error CrudError.capacity_exceeded
                      else
                        .ok [(ent.storage_section_id, -item.unit), (nsid, item.unit)]
            else .ok ([] : List (String × ℤ))
        | none => .ok ([] : List (String × ℤ)))
      let ent' : UnitRow := { ent with
        item_id := p.item_id.getD ent.item_id
        storage_section_id := p.storage_section_id.getD ent.storage_section_id
        rfid_tag_id := p.rfid_tag_id.getD ent.rfid_tag_id
        quantity := match p.quantity with
          | some q => some q
          | none => ent.quantity
        ustatus := p.ustatus.getD ent.ustatus }
      let sections' := applySecChanges db.sections sec_changes
      .ok (some
        ({ db with
           sections := sections'
           units := modifyHead
             (fun u => u.utype == ItemType.partition && u.id == partition_id)
             (fun _ => ent') db.units },
         ent'))

/-- `delete_partition` (`src/app/crud/partition.py` lines 145–166): release
the RFID tag (if it resolves), subtract `item.unit` from the section (if the
section and the item resolve; unclamped) and delete the row.  No stat
recomputation is performed. -/
def delete_partition (db : Db) (partition_id : String) : Option (Db × UnitRow) :=
  match db.units.find? (fun u => u.utype == ItemType.partition && u.id == partition_id) with
  | none => none
  | some ent =>
      let db1 := { db with
        tags := modifyHead (fun t => t.id == ent.rfid_tag_id)
          (fun t => { t with assigned := false }) db.tags }
      let db2 : Db :=
        match db.sections.find? (fun se => se.id == ent.storage_section_id) with
        | some _ =>
            match db.items.find? (fun i => i.id == ent.item_id) with
            | some item =>
                { db1 with
                  sections := modifyHead (fun se => se.id == ent.storage_section_id)
                    (fun se => { se with used_units := se.used_units - item.unit })
                    db1.sections }
            | none => db1
        | none => db1
      some ({ db2 with
              units := db2.units.eraseP
                (fun u => u.utype == ItemType.partition && u.id == partition_id) },
            ent)

/-! ## Container CRUD (`src/app/crud/container.py`) -/

/-- `calculate_quantity` (`src/app/crud/container.py` lines 56–72): when the
item's `ContainerStat` row exists and its `container_item_weight` is truthy
(set and non-zero), return `int(round(items_weight / container_item_weight))`;
otherwise the fallback reads `Item.container_item_weight` through
`getattr(..., None)`, and since the `Item` model no longer declares that
column the fallback always yields `None`. -/
def calculate_quantity (db : Db) (item_id : String) (items_weight : ℚ) : Option ℤ :=
  match db.container_stats.find? (fun r => r.item_id == item_id) with
  | some cs =>
      match cs.container_item_weight with
      | some w => if w ≠ 0 then some (pyRound (items_weight / w)) else none
      | none => none
  | none => none

/-- `ContainerCreate` payload; the CRUD reads `container.items_weight`
(`src/app/crud/container.py` line 76), modelled directly as the weight
field, plus the row id assigned at insert. -/
structure ContainerCreatePayload where
  new_id : String
  item_id : String
  storage_section_id : String
  rfid_tag_id : String
  items_weight : ℚ
deriving DecidableEq, Repr

/-- `ContainerUpdate` payload (`src/app/schemas/container.py`).  The `weight`
and `container_weight` fields are accepted by the schema but are dropped by
the generic update's `hasattr` guard (the `Container` model has no such
columns), so they are carried here only to witness that they have no
effect. -/
structure ContainerUpdatePayload where
  item_id : Option String
  storage_section_id : Option String
  rfid_tag_id : Option String
  weight : Option ℚ
  container_weight : Option ℚ
  ustatus : Option UnitStatus
deriving DecidableEq, Repr

/-- `create_container` (`src/app/crud/container.py` lines 74–103): derive the
quantity from the payload weight, create the entity through the generic CRUD
and then recompute the owning item's container stat
(`_update_container_status`, change source "Register Container"). -/
def create_container (db : Db) (p : ContainerCreatePayload) : Except CrudError Db :=
  let quantity := calculate_quantity db p.item_id p.items_weight
  let entity : UnitRow :=
    { id := p.new_id
      utype := ItemType.container
      item_id := p.item_id
      storage_section_id := p.storage_section_id
      rfid_tag_id := p.rfid_tag_id
      quantity := quantity
      capacity := none
      items_weight := some p.items_weight
      ustatus := UnitStatus.available }
  match create_entity_with_rfid_and_storage db entity ItemType.container with
  | .error e => .error e
  | .ok db1 => .ok (update_container_status db1 p.item_id (some "Register Container"))

/-- `update_container` (`src/app/crud/container.py` lines 105–134): the
recalculation guard reads `update_data.get("items_weight")`, but the payload
key is `weight`, so the quantity is recalculated only when `item_id` is
supplied (using the row's current weight); then the generic update runs and,
on success, the (possibly new) owning item's container stat is recomputed
(change source "Return Container"). -/
def update_container (db : Db) (container_id : String) (p : ContainerUpdatePayload) :
    Except CrudError (Option Db) :=
  let ud0 : EntityUpdateData :=
    { item_id := p.item_id
      storage_section_id := p.storage_section_id
      rfid_tag_id := p.rfid_tag_id
      quantity := none
      ustatus := p.ustatus }
  let ud :=
    match p.item_id,
      db.units.find? (fun u => u.utype == ItemType.container && u.id == container_id) with
    | some nid, some current =>
        { ud0 with
          quantity := some (calculate_quantity db nid (current.items_weight.getD 0)) }
    | _, _ => ud0
  match update_entity_with_rfid_and_storage db ItemType.container container_id ud
      ItemType.container with
  | .error e => .error e
  | .ok none => .ok none
  | .ok (some (db1, ent')) =>
      .ok (some (update_container_status db1 ent'.item_id (some "Return Container")))

/-- `delete_container` (`src/app/crud/container.py` lines 136–150): generic
delete, then recompute the old owning item's container stat (change source
"Container Consumed"). -/
def delete_container (db : Db) (container_id : String) : Option Db :=
  let current :=
    db.units.find? (fun u => u.utype == ItemType.container && u.id == container_id)
  match delete_entity_with_rfid_and_storage db ItemType.container container_id with
  | none => none
  | some (db1, _) =>
      match current with
      | some cur =>
          some (update_container_status db1 cur.item_id (some "Container Consumed"))
      | none => some db1

/-! ## Large item CRUD (`src/app/crud/large_item.py`) -/

/-- `LargeItemCreate` payload plus the row id assigned at insert. -/
structure LargeItemCreatePayload where
  new_id : String
  item_id : String
  storage_section_id : String
  rfid_tag_id : String
deriving DecidableEq, Repr

/-- `LargeItemUpdate` payload (`src/app/schemas/large_item.py`). -/
structure LargeItemUpdatePayload where
  item_id : Option String
  storage_section_id : Option String
  rfid_tag_id : Option String
  ustatus : Option UnitStatus
deriving DecidableEq, Repr

/-- `create_large_item` (`src/app/crud/large_item.py` lines 55–86): generic
create, then `_update_largeitem_status` ("Register Large Item"). -/
def create_large_item (db : Db) (p : LargeItemCreatePayload) : Except CrudError Db :=
  let entity : UnitRow :=
    { id := p.new_id
      utype := ItemType.large_item
      item_id := p.item_id
      storage_section_id := p.storage_section_id
      rfid_tag_id := p.rfid_tag_id
      quantity := none
      capacity := none
      items_weight := none
      ustatus := UnitStatus.available }
  match create_entity_with_rfid_and_storage db entity ItemType.large_item with
  | .error e => .error e
  | .ok db1 => .ok (update_largeitem_status db1 p.item_id (some "Register Large Item"))

/-- `update_large_item` (`src/app/crud/large_item.py` lines 88–107): generic
update, then `_update_largeitem_status` for the (possibly new) owning item
("Return Large Item"). -/
def update_large_item (db : Db) (large_item_id : String) (p : LargeItemUpdatePayload) :
    Except CrudError (Option Db) :=
  let ud : EntityUpdateData :=
    { item_id := p.item_id
      storage_section_id := p.storage_section_id
      rfid_tag_id := p.rfid_tag_id
      quantity := none
      ustatus := p.ustatus }
  match update_entity_with_rfid_and_storage db ItemType.large_item large_item_id ud
      ItemType.large_item with
  | .error e => .error e
  | .ok none => .ok none
  | .ok (some (db1, ent')) =>
      .ok (some (update_largeitem_status db1 ent'.item_id (some "Return Large Item")))

/-- `delete_large_item` (`src/app/crud/large_item.py` lines 109–121): generic
delete, then `_update_largeitem_status` for the old owning item
("Large Item Consumed"). -/
def delete_large_item (db : Db) (large_item_id : String) : Option Db :=
  let current :=
    db.units.find? (fun u => u.utype == ItemType.large_item && u.id == large_item_id)
  match delete_entity_with_rfid_and_storage db ItemType.large_item large_item_id with
  | none => none
  | some (db1, _) =>
      match current with
      | some cur =>
          some (update_largeitem_status db1 cur.item_id (some "Large Item Consumed"))
      | none => some db1

/-- The item currently owning container `cid`: `updated.item_id` as read by
`update_container` after the generic update. -/
def container_owner (db : Db) (cid : String) : Option String :=
  (db.units.find? (fun u => u.utype == ItemType.container && u.id == cid)).map
    (fun u => u.item_id)

/-- The item currently owning large item `lid`. -/
def large_item_owner (db : Db) (lid : String) : Option String :=
  (db.units.find? (fun u => u.utype == ItemType.large_item && u.id == lid)).map
    (fun u => u.item_id)

/-! ## Concrete example states

Small committed states used to evaluate the operations at explicit inputs. -/

/-- A state with one partition-type item (configured stat row, no partitions
yet), one free tag and one section. -/
def exPartDb0 : Db :=
  { items := [{ id := "I1", name := "Item 1", item_type := ItemType.partition, unit := 1 }]
    tags := [{ id := "T1", assigned := false }]
    sections := [{ id := "S1", total_units := 10, used_units := 0 }]
    units := []
    partition_stats := [{ item_id := "I1"
                          total_quantity := some 0
                          total_capacity := some 0
                          partition_capacity := some 10
                          high_threshold := some 80
                          low_threshold := some 20
                          stock_status := some StockStatus.low }]
    largeitem_stats := []
    container_stats := []
    history := [] }

/-- A partition-creation payload against `exPartDb0`. -/
def exPartCreate : PartitionCreatePayload :=
  { new_id := "P1", item_id := "I1", storage_section_id := "S1"
    rfid_tag_id := "T1", quantity := 0, capacity := 10 }

/-- The state `create_partition exPartDb0 exPartCreate` commits: the tag is
assigned and the section charged, but the stat row is left as it was. -/
def exPartDb1 : Db :=
  { items := [{ id := "I1", name := "Item 1", item_type := ItemType.partition, unit := 1 }]
    tags := [{ id := "T1", assigned := true }]
    sections := [{ id := "S1", total_units := 10, used_units := 1 }]
    units := [{ id := "P1"
                utype := ItemType.partition
                item_id := "I1"
                storage_section_id := "S1"
                rfid_tag_id := "T1"
                quantity := some 0
                capacity := some 10
                items_weight := none
                ustatus := UnitStatus.available }]
    partition_stats := [{ item_id := "I1"
                          total_quantity := some 0
                          total_capacity := some 0
                          partition_capacity := some 10
                          high_threshold := some 80
                          low_threshold := some 20
                          stock_status := some StockStatus.low }]
    largeitem_stats := []
    container_stats := []
    history := [] }

/-- A state with two partitions whose RFID tags are both assigned
(one to each partition) — a well-formed committed state. -/
def exRfidDb0 : Db :=
  { items := [{ id := "I1", name := "Item 1", item_type := ItemType.partition, unit := 1 }]
    tags := [{ id := "T1", assigned := true }, { id := "T2", assigned := true }]
    sections := [{ id := "S1", total_units := 10, used_units := 2 }]
    units := [{ id := "P1"
                utype := ItemType.partition
                item_id := "I1"
                storage_section_id := "S1"
                rfid_tag_id := "T1"
                quantity := some 0
                capacity := some 10
                items_weight := none
                ustatus := UnitStatus.available },
              { id := "P2"
                utype := ItemType.partition
                item_id := "I1"
                storage_section_id := "S1"
                rfid_tag_id := "T2"
                quantity := some 0
                capacity := some 10
                items_weight := none
                ustatus := UnitStatus.available }]
    partition_stats := []
    largeitem_stats := []
    container_stats := []
    history := [] }

/-- A partition update that only supplies `rfid_tag_id = "T2"` — the tag
already assigned to partition P2. -/
def exRfidUpdate : PartitionUpdatePayload :=
  { item_id := none, storage_section_id := none, rfid_tag_id := some "T2"
    quantity := none, ustatus := none }

/-- The partition row P1 after `update_partition` applies `exRfidUpdate`. -/
def exRfidP1' : UnitRow :=
  { id := "P1"
    utype := ItemType.partition
    item_id := "I1"
    storage_section_id := "S1"
    rfid_tag_id := "T2"
    quantity := some 0
    capacity := some 10
    items_weight := none
    ustatus := UnitStatus.available }

/-- The state `update_partition exRfidDb0 "P1" exRfidUpdate` commits: P1 now
references T2 (as does P2), both tags still flagged assigned. -/
def exRfidDb1 : Db :=
  { exRfidDb0 with
    units := [exRfidP1',
              { id := "P2"
                utype := ItemType.partition
                item_id := "I1"
                storage_section_id := "S1"
                rfid_tag_id := "T2"
                quantity := some 0
                capacity := some 10
                items_weight := none
                ustatus := UnitStatus.available }] }

/-- A state with one container-type item, its configured stat row
(`container_item_weight = 2`, thresholds 10/50, the worked example of the
design document §8), one free tag and one section. -/
def exContDb0 : Db :=
  { items := [{ id := "IC", name := "Cont item", item_type := ItemType.container, unit := 1 }]
    tags := [{ id := "TC", assigned := false }]
    sections := [{ id := "S1", total_units := 10, used_units := 0 }]
    units := []
    partition_stats := []
    largeitem_stats := []
    container_stats := [{ item_id := "IC"
                          container_item_weight := some 2
                          container_weight := some 1
                          total_weight := some 0
                          total_quantity := some 0
                          high_threshold := some 50
                          low_threshold := some 10
                          stock_status := some StockStatus.low }]
    history := [] }

/-- A container-creation payload against `exContDb0` with weight 20. -/
def exContCreate : ContainerCreatePayload :=
  { new_id := "C1", item_id := "IC", storage_section_id := "S1"
    rfid_tag_id := "TC", items_weight := 20 }

/-- The state `create_container exContDb0 exContCreate` commits: unit
inserted, tag assigned, section charged, stat recomputed
(`total_weight = 20`, `total_quantity = 10`, status MEDIUM) and one history
row recorded. -/
def exContDb1 : Db :=
  { items := [{ id := "IC", name := "Cont item", item_type := ItemType.container, unit := 1 }]
    tags := [{ id := "TC", assigned := true }]
    sections := [{ id := "S1", total_units := 10, used_units := 1 }]
    units := [{ id := "C1"
                utype := ItemType.container
                item_id := "IC"
                storage_section_id := "S1"
                rfid_tag_id := "TC"
                quantity := some 10
                capacity := none
                items_weight := some 20
                ustatus := UnitStatus.available }]
    partition_stats := []
    largeitem_stats := []
    container_stats := [{ item_id := "IC"
                          container_item_weight := some 2
                          container_weight := some 1
                          total_weight := some 20
                          total_quantity := some 10
                          high_threshold := some 50
                          low_threshold := some 10
                          stock_status := some StockStatus.medium }]
    history := [{ item_id := "IC"
                  item_name := "Cont item"
                  item_type := ItemType.container
                  total_quantity := some 10
                  total_capacity := none
                  total_weight := some 20
                  stock_status := some StockStatus.medium
                  change_source := some "Register Container" }] }

/-- A state with one container-type item whose stat row has a *negative*
configured `container_item_weight` (the schemas place no lower bound on it)
and one container of weight 5. -/
def exNegDb0 : Db :=
  { items := [{ id := "IN", name := "Neg item", item_type := ItemType.container, unit := 1 }]
    tags := [{ id := "TN", assigned := true }]
    sections := [{ id := "S1", total_units := 10, used_units := 1 }]
    units := [{ id := "C9"
                utype := ItemType.container
                item_id := "IN"
                storage_section_id := "S1"
                rfid_tag_id := "TN"
                quantity := none
                capacity := none
                items_weight := some 5
                ustatus := UnitStatus.available }]
    partition_stats := []
    largeitem_stats := []
    container_stats := [{ item_id := "IN"
                          container_item_weight := some (-1)
                          container_weight := none
                          total_weight := some 0
                          total_quantity := none
                          high_threshold := some 10
                          low_threshold := some 1
                          stock_status := some StockStatus.low }]
    history := [] }

/-- Modelled from the claim's words (spec §4.3): "`total_quantity =
round(total_weight / container_item_weight)` when `container_item_weight` is
configured, else null" — configured meaning non-null, with no positivity
side-condition. -/
def spec_container_total_quantity (container_item_weight : Option ℚ)
    (total_weight : ℚ) : Option ℤ :=
  match container_item_weight with
  | some w => some (pyRound (total_weight / w))
  | none => none

/-! ## The container branch of `update_item` (`src/app/crud/item.py`) -/

/-- The container-stat inputs `update_item` pops from its payload
(`src/app/crud/item.py` lines 483–487).  The payload is
`model_dump()` of the full `ItemUpdate` schema (not `exclude_unset`), so an
omitted field and an explicit null both arrive as `None`;
`container_stock_status` is popped but is not a schema field, so it is only
ever non-null for raw-dict callers. -/
structure ItemUpdateStatInputs where
  container_item_weight : Option ℚ
  container_weight : Option ℚ
  container_high : Option ℚ
  container_low : Option ℚ
  container_stock_status : Option StockStatus
deriving DecidableEq, Repr

/-- The field writes of `update_item`'s container branch
(`src/app/crud/item.py` lines 562–577): `container_item_weight` is written
unconditionally — the guard `if "container_item_weight_val" in locals()` is
always true because the variable is assigned at line 483 — while the other
four inputs are written only when non-null. -/
def apply_container_stat_inputs (cs : ContainerStatRow)
    (p : ItemUpdateStatInputs) : ContainerStatRow :=
  let cs1 := { cs with container_item_weight := p.container_item_weight }
  let cs2 := match p.container_weight with
    | some w => { cs1 with container_weight := some w }
    | none => cs1
  let cs3 := match p.container_high with
    | some h => { cs2 with high_threshold := some h }
    | none => cs2
  let cs4 := match p.container_low with
    | some l => { cs3 with low_threshold := some l }
    | none => cs3
  match p.container_stock_status with
  | some st => { cs4 with stock_status := some st }
  | none => cs4

/-- The CONTAINER branch of `update_item` (`src/app/crud/item.py` lines
558–588) for an item whose type is CONTAINER: upsert the `ContainerStat` row
(created with `total_weight = 0` and everything else unset when missing),
apply the payload's stat inputs, commit, and then recompute via
`_update_container_status` with change source "Item Threshold Change". -/
def update_item_container_stats (db : Db) (item_id : String)
    (p : ItemUpdateStatInputs) : Db :=
  let db1 : Db :=
    match db.container_stats.find? (fun r => r.item_id == item_id) with
    | some _ =>
        { db with
          container_stats := modifyHead (fun r => r.item_id == item_id)
            (fun cs => apply_container_stat_inputs cs p) db.container_stats }
    | none =>
        { db with
          container_stats := db.container_stats ++
            [apply_container_stat_inputs
              { item_id := item_id
                container_item_weight := none
                container_weight := none
                total_weight := some 0
                total_quantity := none
                high_threshold := none
                low_threshold := none
                stock_status := none } p] }
  update_container_status db1 item_id (some "Item Threshold Change")

/-! ## History snapshot id generation (`src/app/models/item.py`) -/

/-- The type-code map of `generate_item_stat_history_id`. -/
def ish_type_code : ItemType → String
  | ItemType.partition => "P"
  | ItemType.container => "C"
  | ItemType.large_item => "L"

/-- `ORDER BY id DESC LIMIT 1`: the lexicographically greatest id (byte-wise
string comparison, as in the database's default collation). -/
def lexMax : List String → Option String
  | [] => none
  | s :: rest =>
      match lexMax rest with
      | none => some s
      | some m => if m.data < s.data then some s else some m

/-- Python `int(...)` on the suffix, with the surrounding
`except: last_number = 0`: the decimal value of an all-digit string, 0
otherwise. -/
def parseIntSuffix (cs : List Char) : ℕ :=
  if cs ≠ [] ∧ cs.all Char.isDigit then
    cs.foldl (fun a c => a * 10 + (c.toNat - 48)) 0
  else 0

/-- `generate_item_stat_history_id` (`src/app/models/item.py` lines 137–166):
take the lexicographically greatest existing id with the `ISH-<code>` prefix
(`SELECT id ... WHERE id LIKE :prefix% ORDER BY id DESC LIMIT 1`), strip the
prefix (Python uses `last_id.replace(prefix, "")`, which for the ids at hand
— prefix followed by digits — equals dropping the prefix), parse the decimal
suffix and append its successor; `ISH-<code>1` when none exists yet. -/
def generate_item_stat_history_id (existing : List String) (t : ItemType) : String :=
  let pre := "ISH-" ++ ish_type_code t
  match lexMax (existing.filter (fun s => pre.data.isPrefixOf s.data)) with
  | none => pre ++ "1"
  | some last_id =>
      let last_number := parseIntSuffix (last_id.data.drop pre.length)
      pre ++ toString (last_number + 1)

/-- The id table after `n` successive snapshot inserts of one type, each id
produced by `generate_item_stat_history_id` over the ids already present. -/
def history_ids_after (t : ItemType) : ℕ → List String
  | 0 => []
  | n + 1 =>
      let prev := history_ids_after t n
      prev ++ [generate_item_stat_history_id prev t]

/-! ## Session-level model of `_persist_if_changed` (C9)

The committed-state updaters above model the success path.  To settle what
happens when the history write fails, the SQLAlchemy session must be made
explicit: a persistent object has an in-session attribute state separate
from its committed (database) state, `session.rollback()` expires the object
— unflushed attribute modifications revert to the committed values — and
discards pending inserts, `session.add` of an already-persistent object does
not re-register discarded changes, and `session.commit()` flushes the
current object state together with all pending inserts in one
transaction. -/

/-- A session holding one persistent `PartitionStat` object. -/
structure StatSession where
  committed : PartitionStatRow
  obj : PartitionStatRow
  committed_history : List HistoryRow
  pending_history : List HistoryRow
  items : List ItemRow
deriving DecidableEq, Repr

/-- `session.rollback()`. -/
def sessionRollback (s : StatSession) : StatSession :=
  { s with obj := s.committed, pending_history := [] }

/-- `session.commit()`: flush the object's attribute state and the pending
inserts. -/
def sessionCommit (s : StatSession) : StatSession :=
  { s with
    committed := s.obj
    committed_history := s.committed_history ++ s.pending_history
    pending_history := [] }

/-- The changes mapping `_update_partition_status` hands to
`_persist_if_changed`. -/
structure PartitionStatChanges where
  total_quantity : ℤ
  total_capacity : ℤ
  stock_status : Option StockStatus
deriving DecidableEq, Repr

/-- `_persist_if_changed` (`src/app/crud/item.py` lines 53–72) at session
level for a `PartitionStat` row, with an explicit flag for whether the
history write raises.  The changed fields are set on the object; when
nothing changed the function returns without committing.  Otherwise
`_maybe_record_stat_history` runs inside `try`: on success it `session.add`s
the snapshot, and the single `db.commit()` at line 71 then flushes the stat
update *and* the history insert together — so a history insert that fails at
flush time (e.g. the duplicate primary key of `history_id_collision`) aborts
the stat update with it.  When the history write raises earlier, the
`except` branch calls `db.rollback()` — which also discards the unflushed
stat field changes — re-adds the object (a no-op for attribute state) and
the subsequent commit flushes nothing. -/
def persist_if_changed_session (s : StatSession) (changes : PartitionStatChanges)
    (history_raises : Bool) (change_source : Option String) : StatSession :=
  let obj' := { s.obj with
    total_quantity := some changes.total_quantity
    total_capacity := some changes.total_capacity
    stock_status := changes.stock_status }
  if obj' = s.obj then s
  else if history_raises then
    sessionCommit (sessionRollback { s with obj := obj' })
  else
    sessionCommit { s with
      obj := obj'
      pending_history := s.pending_history ++
        recordHistory s.items obj'.item_id
          (obj'.total_quantity.map (fun z => (z : ℚ)))
          (obj'.total_capacity.map (fun z => (z : ℚ))) none
          obj'.stock_status change_source }

/-- A session about to apply a partition stat recomputation: committed
totals 0/0, recomputed totals 5/10 with status HIGH. -/
def exSess0 : StatSession :=
  { committed := { item_id := "I1"
                   total_quantity := some 0
                   total_capacity := some 0
                   partition_capacity := some 10
                   high_threshold := some 80
                   low_threshold := some 20
                   stock_status := some StockStatus.low }
    obj := { item_id := "I1"
             total_quantity := some 0
             total_capacity := some 0
             partition_capacity := some 10
             high_threshold := some 80
             low_threshold := some 20
             stock_status := some StockStatus.low }
    committed_history := []
    pending_history := []
    items := [{ id := "I1", name := "Item 1", item_type := ItemType.partition, unit := 1 }] }

/-- The changes of that recomputation. -/
def exChanges : PartitionStatChanges :=
  { total_quantity := 5, total_capacity := 10, stock_status := some StockStatus.high }

/-! ## Capacity ledger bookkeeping (C8) -/

/-- The storage footprint a unit row occupies: `item.unit` of its owning
item, 0 when the item row does not resolve (matching the `if item:` guard on
the release paths). -/
def unitFootprint (items : List ItemRow) (u : UnitRow) : ℤ :=
  match items.find? (fun i => i.id == u.item_id) with
  | some item => item.unit
  | none => 0

/-- The total footprint of the units residing in section `sid`. -/
def sectionLoad (items : List ItemRow) (units : List UnitRow) (sid : String) : ℤ :=
  ((units.filter (fun u => u.storage_section_id == sid)).map (unitFootprint items)).sum

/-- The shapes a CRUD operation's section-change list can take, with the
capacity checks that guarded them: no change (resident section and footprint
unchanged), a same-section footprint adjustment, or a release/reserve pair
across two sections. -/
def SecChangesOk (items : List ItemRow) (sections : List SectionRow)
    (ent ent' : UnitRow) : List (String × ℤ) → Prop
  | [] =>
      ent'.storage_section_id = ent.storage_section_id ∧
      unitFootprint items ent' = unitFootprint items ent
  | [(sid, d)] =>
      sid = ent.storage_section_id ∧
      ent'.storage_section_id = ent.storage_section_id ∧
      d = unitFootprint items ent' - unitFootprint items ent ∧
      ∃ os, sections.find? (fun se => se.id == sid) = some os ∧
        os.used_units + d ≤ os.total_units
  | [(osid, a), (nsid, b)] =>
      osid = ent.storage_section_id ∧
      nsid = ent'.storage_section_id ∧
      osid ≠ nsid ∧
      a = -(unitFootprint items ent) ∧
      b = unitFootprint items ent' ∧
      ∃ ns, sections.find? (fun se => se.id == nsid) = some ns ∧
        ns.used_units + b ≤ ns.total_units
  | _ => False

/-- Cumulative used-unit delta a change list applies to a given section id. -/
def secDelta (sc : List (String × ℤ)) (sid : String) : ℤ :=
  ((sc.filter (fun sd => sd.1 == sid)).map (fun sd => sd.2)).sum

/-- The capacity-ledger well-formedness invariant: item footprints are
non-negative, section ids are unique (they are primary keys), and every
section's `used_units` is at least the resident load and at most
`total_units`. -/
def CapInv (db : Db) : Prop :=
  (∀ i ∈ db.items, 0 ≤ i.unit) ∧
  (db.sections.map (fun s => s.id)).Nodup ∧
  (∀ s ∈ db.sections,
    sectionLoad db.items db.units s.id ≤ s.used_units ∧
    s.used_units ≤ s.total_units)

/-- The reserve/release operations of the claim: unit creation, unit
deletion, and storage-section moves (the partition move is `update_partition`
with no `item_id` in the payload; container/large-item updates go through
the generic CRUD, which adjusts the ledger for item changes as well). -/
inductive CapOp where
  | createP (p : PartitionCreatePayload)
  | deleteP (id : String)
  | moveP (id : String) (new_section : Option String) (rfid : Option String)
      (q : Option ℤ) (st : Option UnitStatus)
  | createC (p : ContainerCreatePayload)
  | deleteC (id : String)
  | updateC (id : String) (p : ContainerUpdatePayload)
  | createL (p : LargeItemCreatePayload)
  | deleteL (id : String)
  | updateL (id : String) (p : LargeItemUpdatePayload)

/-- Run one operation against the committed state; a raised error rolls the
transaction back, leaving the committed state unchanged. -/
def runCapOp (db : Db) : CapOp → Db
  | .createP p =>
      match create_partition db p with
      | .ok db' => db'
      | .error _ => db
  | .deleteP id =>
      match delete_partition db id with
      | some (db', _) => db'
      | none => db
  | .moveP id ns r q st =>
      match update_partition db id
        { item_id := none, storage_section_id := ns, rfid_tag_id := r
          quantity := q, ustatus := st } with
      | .ok (some (db', _)) => db'
      | _ => db
  | .createC p =>
      match create_container db p with
      | .ok db' => db'
      | .error _ => db
  | .deleteC id => (delete_container db id).getD db
  | .updateC id p =>
      match update_container db id p with
      | .ok (some db') => db'
      | _ => db
  | .createL p =>
      match create_large_item db p with
      | .ok db' => db'
      | .error _ => db
  | .deleteL id => (delete_large_item db id).getD db
  | .updateL id p =>
      match update_large_item db id p with
      | .ok (some db') => db'
      | _ => db

/-- Run a sequence of reserve/release operations. -/
def runCapOps (db : Db) (ops : List CapOp) : Db :=
  ops.foldl runCapOp db

/-- Example committed state for the capacity-ledger run. -/
def exCapDb : Db :=
  { items := [{ id := "I1", name := "Item 1", item_type := ItemType.partition, unit := 2 }]
    tags := [{ id := "T1", assigned := false }, { id := "T2", assigned := false }]
    sections := [{ id := "S1", total_units := 4, used_units := 0 },
                 { id := "S2", total_units := 2, used_units := 0 }]
    units := []
    partition_stats := []
    largeitem_stats := []
    container_stats := []
    history := [] }

/-- Example reserve/release sequence: create a partition in S1, move it to
S2, delete it. -/
def exCapOps : List CapOp :=
  [CapOp.createP { new_id := "P1", item_id := "I1", storage_section_id := "S1"
                   rfid_tag_id := "T1", quantity := 5, capacity := 10 },
   CapOp.moveP "P1" (some "S2") none none none,
   CapOp.deleteP "P1"]

/-! ## Fleet-wide status history aggregation (C6,
`aggregate_item_status_history`, `src/app/crud/item.py` lines 723–806)

Timestamps are modelled as a proleptic-Gregorian day number (the standard
`days_from_civil` conversion, so Python's `timedelta`/`date` day arithmetic
is day-number arithmetic) plus an intra-day tick; the period end bound
`datetime.combine(d, time.max)` is the last instant of day `d`, so
`timestamp <= period_end` is `ts_day ≤ d`. -/

/-- A calendar date. -/
structure Date where
  year : ℤ
  month : ℤ
  day : ℤ
deriving DecidableEq, Repr

/-- Proleptic-Gregorian day number (`days_from_civil`); 1970-01-01 is day 0.
All divisors are positive, so `Int./` (Euclidean) is Python's floor division. -/
def dayNumber (dt : Date) : ℤ :=
  let y := if dt.month ≤ 2 then dt.year - 1 else dt.year
  let era := y / 400
  let yoe := y - era * 400
  let mp := if dt.month ≤ 2 then dt.month + 9 else dt.month - 3
  let doy := (153 * mp + 2) / 5 + dt.day - 1
  let doe := yoe * 365 + yoe / 4 - yoe / 100 + doy
  era * 146097 + doe - 719468

/-- Inverse conversion (`civil_from_days`), for the day-granularity labels
`start_dt + timedelta(days=idx)`. -/
def dateOfDays (n : ℤ) : Date :=
  let z := n + 719468
  let era := z / 146097
  let doe := z - era * 146097
  let yoe := (doe - doe / 1460 + doe / 36524 - doe / 146096) / 365
  let y := yoe + era * 400
  let doy := doe - (365 * yoe + yoe / 4 - yoe / 100)
  let mp := (5 * doy + 2) / 153
  let d := doy - (153 * mp + 2) / 5 + 1
  let m := if mp < 10 then mp + 3 else mp - 9
  { year := if m ≤ 2 then y + 1 else y, month := m, day := d }

/-- Gregorian leap year (`calendar.isleap`). -/
def isLeap (y : ℤ) : Bool :=
  (y % 4 == 0 && !(y % 100 == 0)) || y % 400 == 0

/-- Days in a month (`calendar.monthrange(y, m)[1]`). -/
def daysInMonth (y m : ℤ) : ℤ :=
  if m = 2 then (if isLeap y then 29 else 28)
  else if m = 4 ∨ m = 6 ∨ m = 9 ∨ m = 11 then 30
  else 31

/-- Aggregation granularity; an unsupported granularity string raises a
`ValueError` before any period is computed, so the embedding takes the
validated enum. -/
inductive Granularity where
  | day
  | month
  | year
deriving DecidableEq, Repr

/-- An `ItemStatHistory` row as the aggregation reads it. -/
structure HistRecord where
  item_id : String
  ts_day : ℤ
  ts_tick : ℕ
  stock_status : Option StockStatus
deriving DecidableEq, Repr

/-- Timestamp order: day number, then intra-day tick. -/
def tsLe (a b : HistRecord) : Bool :=
  decide (a.ts_day < b.ts_day) ||
    (a.ts_day == b.ts_day && decide (a.ts_tick ≤ b.ts_tick))

/-- `_period_bounds_for`: the period's label date. -/
def period_label (g : Granularity) (s : Date) (idx : ℕ) : Date :=
  match g with
  | .day => dateOfDays (dayNumber s + idx)
  | .month =>
      let t := s.month - 1 + idx
      { year := s.year + t / 12, month := t % 12 + 1, day := 1 }
  | .year => { year := s.year + idx, month := 1, day := 1 }

/-- `_period_bounds_for`: the day number of the period's end bound (the
period's last day, at `time.max`). -/
def period_end_day (g : Granularity) (s : Date) (idx : ℕ) : ℤ :=
  match g with
  | .day => dayNumber s + idx
  | .month =>
      let t := s.month - 1 + idx
      let y := s.year + t / 12
      let m := t % 12 + 1
      dayNumber { year := y, month := m, day := daysInMonth y m }
  | .year => dayNumber { year := s.year + idx, month := 12, day := 31 }

/-- The code's period count. -/
def num_periods (g : Granularity) (s e : Date) : ℕ :=
  match g with
  | .day => (dayNumber e - dayNumber s + 1).toNat
  | .month => ((e.year - s.year) * 12 + (e.month - s.month) + 1).toNat
  | .year => (e.year - s.year + 1).toNat

/-- The join of the per-item max-timestamp subquery with the table: the rows
whose timestamp is maximal among their item's rows at or before the period
end. -/
def latest_rows (hist : List HistRecord) (pend : ℤ) : List HistRecord :=
  hist.filter (fun r => decide (r.ts_day ≤ pend) &&
    hist.all (fun r2 =>
      !(r2.item_id == r.item_id && decide (r2.ts_day ≤ pend)) || tsLe r2 r))

/-- Distinct item ids of one `stock_status` group of the joined rows
(`count(distinct item_id)`; the NULL-status group is skipped, so such items
are counted nowhere). -/
def bucket_items (hist : List HistRecord) (pend : ℤ) (st : StockStatus) :
    List String :=
  (((latest_rows hist pend).filter (fun r => r.stock_status == some st)).map
    (fun r => r.item_id)).dedup

/-- One period's `values` dict: the canonical keys in `StockStatus`
declaration order, each group's distinct-item count, 0 for an absent group. -/
def period_values (hist : List HistRecord) (pend : ℤ) : List (String × ℕ) :=
  [("high", (bucket_items hist pend StockStatus.high).length),
   ("medium", (bucket_items hist pend StockStatus.medium).length),
   ("low", (bucket_items hist pend StockStatus.low).length)]

/-- The enum value string of a status. -/
def statusKey : StockStatus → String
  | .high => "high"
  | .medium => "medium"
  | .low => "low"

/-- `aggregate_item_status_history(db, start, end, granularity)` over a
committed history table, after ISO parsing. -/
def aggregate_item_status_history (hist : List HistRecord) (g : Granularity)
    (s e : Date) : Except CrudError (List (Date × List (String × ℕ))) :=
  if dayNumber e < dayNumber s then .error CrudError.value_error
  else
    .ok ((List.range (num_periods g s e)).map (fun idx =>
      (period_label g s idx, period_values hist (period_end_day g s idx))))

/-- Modelled from the spec: in a period ending at day `pend`, item `i` is
counted under `st` when one of its snapshots at or before the period end is
most recent among them and carries status `st`. -/
def spec_counted (hist : List HistRecord) (pend : ℤ) (i : String)
    (st : StockStatus) : Prop :=
  ∃ r ∈ hist, r.item_id = i ∧ r.ts_day ≤ pend ∧ r.stock_status = some st ∧
    ∀ r2 ∈ hist, r2.item_id = i → r2.ts_day ≤ pend → tsLe r2 r = true

/-- Example history table for the aggregation run. -/
def exHist : List HistRecord :=
  [{ item_id := "I1", ts_day := 19750, ts_tick := 0, stock_status := some StockStatus.low },
   { item_id := "I1", ts_day := 19800, ts_tick := 5, stock_status := some StockStatus.high },
   { item_id := "I2", ts_day := 19760, ts_tick := 3, stock_status := some StockStatus.medium }]

/-- Example aggregation range start (2024-01-15). -/
def exAggStart : Date := { year := 2024, month := 1, day := 15 }

/-- Example aggregation range end (2024-03-10). -/
def exAggEnd : Date := { year := 2024, month := 3, day := 10 }


end Inventory

namespace Inventory

/-! ## Theorems

The Batteries rational arithmetic operations are `@[irreducible]`, which
blocks `decide` on concrete states; they are made semireducible locally so
witnesses can be evaluated. -/

attribute [local semireducible] Rat.add Rat.sub Rat.mul Rat.inv

@[simp] theorem modifyHead_nil (p : α → Bool) (f : α → α) :
    modifyHead p f [] = [] := rfl

theorem modifyHead_cons (p : α → Bool) (f : α → α) (a : α) (as : List α) :
    modifyHead p f (a :: as) =
      if p a then f a :: as else a :: modifyHead p f as := rfl

/-- `find?` after `modifyHead` with the same predicate returns the rewritten
row, provided the rewrite keeps the row matching. -/
theorem find?_modifyHead (p : α → Bool) (f : α → α) (l : List α)
    (hf : ∀ a, p a = true → p (f a) = true) :
    (modifyHead p f l).find? p = (l.find? p).map f := by
  induction l with
  | nil => rfl
  | cons a as ih =>
    by_cases hpa : p a = true
    · simp [modifyHead_cons, hpa, List.find?_cons, hf a hpa]
    · have hpa' : p a = false := by simpa using hpa
      simp [modifyHead_cons, hpa', List.find?_cons, ih]


/-! ### Idempotence of the three stat updaters -/

theorem container_stat_target_item_id (db : Db) (i : String) (cs : ContainerStatRow) :
    (container_stat_target db i cs).item_id = cs.item_id := rfl

theorem partition_stat_target_item_id (db : Db) (i : String) (ps : PartitionStatRow) :
    (partition_stat_target db i ps).item_id = ps.item_id := rfl

theorem largeitem_stat_target_item_id (db : Db) (i : String) (ls : LargeItemStatRow) :
    (largeitem_stat_target db i ls).item_id = ls.item_id := rfl

theorem container_stat_target_congr_units (db db' : Db) (hu : db'.units = db.units)
    (i : String) (cs : ContainerStatRow) :
    container_stat_target db' i cs = container_stat_target db i cs := by
  unfold container_stat_target containersOf
  rw [hu]

theorem partition_stat_target_congr_units (db db' : Db) (hu : db'.units = db.units)
    (i : String) (ps : PartitionStatRow) :
    partition_stat_target db' i ps = partition_stat_target db i ps := by
  unfold partition_stat_target partitionsOf
  rw [hu]

theorem largeitem_stat_target_congr_units (db db' : Db) (hu : db'.units = db.units)
    (i : String) (ls : LargeItemStatRow) :
    largeitem_stat_target db' i ls = largeitem_stat_target db i ls := by
  unfold largeitem_stat_target largeItemsOf
  rw [hu]

theorem container_stat_target_idem (db : Db) (i : String) (cs : ContainerStatRow) :
    container_stat_target db i (container_stat_target db i cs) =
      container_stat_target db i cs := by
  simp only [container_stat_target]

theorem partition_stat_target_idem (db : Db) (i : String) (ps : PartitionStatRow) :
    partition_stat_target db i (partition_stat_target db i ps) =
      partition_stat_target db i ps := by
  simp only [partition_stat_target]

theorem largeitem_stat_target_idem (db : Db) (i : String) (ls : LargeItemStatRow) :
    largeitem_stat_target db i (largeitem_stat_target db i ls) =
      largeitem_stat_target db i ls := by
  simp only [largeitem_stat_target]

/-- Applying `_update_container_status` twice with no intervening mutation is
the same as applying it once (the change sources of the two calls may
differ). -/
theorem update_container_status_idem (db : Db) (i : String) (s s' : Option String) :
    update_container_status (update_container_status db i s) i s' =
      update_container_status db i s := by
  cases hfind : db.container_stats.find? (fun r => r.item_id == i) with
  | none =>
    have h1 : ∀ src, update_container_status db i src = db := fun src => by
      unfold update_container_status; rw [hfind]
    rw [h1 s, h1 s']
  | some cs =>
    by_cases hch : container_stat_target db i cs = cs
    · have h1 : ∀ src, update_container_status db i src = db := fun src => by
        unfold update_container_status
        rw [hfind]
        simp [hch]
      rw [h1 s, h1 s']
    · have hp := List.find?_some hfind
      have h1 : update_container_status db i s =
          { db with
            container_stats :=
              modifyHead (fun r => r.item_id == i)
                (fun _ => container_stat_target db i cs) db.container_stats
            history := db.history ++
              recordHistory db.items i
                ((container_stat_target db i cs).total_quantity.map (fun z => (z : ℚ)))
                none (container_stat_target db i cs).total_weight
                (container_stat_target db i cs).stock_status s } := by
        unfold update_container_status
        rw [hfind]
        simp [hch]
      set db1 := update_container_status db i s with hdb1
      have hunits : db1.units = db.units := by rw [h1]
      have hstats : db1.container_stats =
          modifyHead (fun r => r.item_id == i)
            (fun _ => container_stat_target db i cs) db.container_stats := by
        rw [h1]
      have hfind1 : db1.container_stats.find? (fun r => r.item_id == i) =
          some (container_stat_target db i cs) := by
        rw [hstats, find?_modifyHead _ _ _ ?_, hfind]
        · rfl
        · intro a _
          simp only [container_stat_target_item_id]
          exact hp
      have htarget : container_stat_target db1 i (container_stat_target db i cs) =
          container_stat_target db i cs := by
        rw [container_stat_target_congr_units db db1 hunits]
        exact container_stat_target_idem db i cs
      unfold update_container_status
      rw [hfind1]
      dsimp only
      rw [htarget]
      simp

/-- Applying `_update_partition_status` twice with no intervening mutation is
the same as applying it once. -/
theorem update_partition_status_idem (db : Db) (i : String) (s s' : Option String) :
    update_partition_status (update_partition_status db i s) i s' =
      update_partition_status db i s := by
  cases hfind : db.partition_stats.find? (fun r => r.item_id == i) with
  | none =>
    have h1 : ∀ src, update_partition_status db i src = db := fun src => by
      unfold update_partition_status; rw [hfind]
    rw [h1 s, h1 s']
  | some ps =>
    by_cases hch : partition_stat_target db i ps = ps
    · have h1 : ∀ src, update_partition_status db i src = db := fun src => by
        unfold update_partition_status
        rw [hfind]
        simp [hch]
      rw [h1 s, h1 s']
    · have hp := List.find?_some hfind
      have h1 : update_partition_status db i s =
          { db with
            partition_stats :=
              modifyHead (fun r => r.item_id == i)
                (fun _ => partition_stat_target db i ps) db.partition_stats
            history := db.history ++
              recordHistory db.items i
                ((partition_stat_target db i ps).total_quantity.map (fun z => (z : ℚ)))
                ((partition_stat_target db i ps).total_capacity.map (fun z => (z : ℚ)))
                none (partition_stat_target db i ps).stock_status s } := by
        unfold update_partition_status
        rw [hfind]
        simp [hch]
      set db1 := update_partition_status db i s with hdb1
      have hunits : db1.units = db.units := by rw [h1]
      have hstats : db1.partition_stats =
          modifyHead (fun r => r.item_id == i)
            (fun _ => partition_stat_target db i ps) db.partition_stats := by
        rw [h1]
      have hfind1 : db1.partition_stats.find? (fun r => r.item_id == i) =
          some (partition_stat_target db i ps) := by
        rw [hstats, find?_modifyHead _ _ _ ?_, hfind]
        · rfl
        · intro a _
          simp only [partition_stat_target_item_id]
          exact hp
      have htarget : partition_stat_target db1 i (partition_stat_target db i ps) =
          partition_stat_target db i ps := by
        rw [partition_stat_target_congr_units db db1 hunits]
        exact partition_stat_target_idem db i ps
      unfold update_partition_status
      rw [hfind1]
      dsimp only
      rw [htarget]
      simp

/-- Applying `_update_largeitem_status` twice with no intervening mutation is
the same as applying it once. -/
theorem update_largeitem_status_idem (db : Db) (i : String) (s s' : Option String) :
    update_largeitem_status (update_largeitem_status db i s) i s' =
      update_largeitem_status db i s := by
  cases hfind : db.largeitem_stats.find? (fun r => r.item_id == i) with
  | none =>
    have h1 : ∀ src, update_largeitem_status db i src = db := fun src => by
      unfold update_largeitem_status; rw [hfind]
    rw [h1 s, h1 s']
  | some ls =>
    by_cases hch : largeitem_stat_target db i ls = ls
    · have h1 : ∀ src, update_largeitem_status db i src = db := fun src => by
        unfold update_largeitem_status
        rw [hfind]
        simp [hch]
      rw [h1 s, h1 s']
    · have hp := List.find?_some hfind
      have h1 : update_largeitem_status db i s =
          { db with
            largeitem_stats :=
              modifyHead (fun r => r.item_id == i)
                (fun _ => largeitem_stat_target db i ls) db.largeitem_stats
            history := db.history ++
              recordHistory db.items i
                ((largeitem_stat_target db i ls).total_quantity.map (fun z => (z : ℚ)))
                none none (largeitem_stat_target db i ls).stock_status s } := by
        unfold update_largeitem_status
        rw [hfind]
        simp [hch]
      set db1 := update_largeitem_status db i s with hdb1
      have hunits : db1.units = db.units := by rw [h1]
      have hstats : db1.largeitem_stats =
          modifyHead (fun r => r.item_id == i)
            (fun _ => largeitem_stat_target db i ls) db.largeitem_stats := by
        rw [h1]
      have hfind1 : db1.largeitem_stats.find? (fun r => r.item_id == i) =
          some (largeitem_stat_target db i ls) := by
        rw [hstats, find?_modifyHead _ _ _ ?_, hfind]
        · rfl
        · intro a _
          simp only [largeitem_stat_target_item_id]
          exact hp
      have htarget : largeitem_stat_target db1 i (largeitem_stat_target db i ls) =
          largeitem_stat_target db i ls := by
        rw [largeitem_stat_target_congr_units db db1 hunits]
        exact largeitem_stat_target_idem db i ls
      unfold update_largeitem_status
      rw [hfind1]
      dsimp only
      rw [htarget]
      simp

/-- **C2.** The Stat Aggregator is idempotent: for every database state, every
item and every pair of change sources, running the per-type stat
recomputation twice in a row with no intervening mutation of the child unit
rows produces exactly the state of the first run — in particular the stat
row's field values are identical after both calls and the second call appends
no `ItemStatHistory` row — for all three updaters. -/
theorem stat_aggregator_idempotent (db : Db) (item_id : String)
    (src src' : Option String) :
    update_partition_status (update_partition_status db item_id src) item_id src' =
      update_partition_status db item_id src ∧
    update_largeitem_status (update_largeitem_status db item_id src) item_id src' =
      update_largeitem_status db item_id src ∧
    update_container_status (update_container_status db item_id src) item_id src' =
      update_container_status db item_id src :=
  ⟨update_partition_status_idem db item_id src src',
   update_largeitem_status_idem db item_id src src',
   update_container_status_idem db item_id src src'⟩


/-- **C1.** For thresholds with `low < high`, the shared status derivation
returns HIGH iff `value ≥ high`, LOW iff `value ≤ low` (equivalently
`value ≤ low ∧ value < high`), MEDIUM exactly on the open interval, and it
returns the unset status whenever both thresholds are unset. -/
theorem determine_stock_status_spec (value lo hi : ℚ) (hlt : lo < hi) :
    (determine_stock_status value (some lo) (some hi) = some StockStatus.high ↔
      value ≥ hi) ∧
    (determine_stock_status value (some lo) (some hi) = some StockStatus.low ↔
      value ≤ lo ∧ value < hi) ∧
    (determine_stock_status value (some lo) (some hi) = some StockStatus.medium ↔
      lo < value ∧ value < hi) ∧
    (∀ v : ℚ, determine_stock_status v none none = none) := by
  unfold determine_stock_status
  refine ⟨?_, ?_, ?_, fun v => by simp⟩
  · rcases le_or_lt hi value with h | h
    · simp [h, le_of_lt hlt]
    · simp only [decide_eq_true_eq]
      rw [if_neg (by simp), if_neg (by simpa using not_le.mpr h)]
      constructor
      · intro hcontra
        exfalso
        by_cases hlo : value ≤ lo
        · simp [hlo] at hcontra
        · simp [hlo] at hcontra
      · intro hge; exact absurd hge (not_le.mpr h)
  · rcases le_or_lt value lo with h | h
    · have hvh : ¬ (value ≥ hi) := not_le.mpr (lt_of_le_of_lt h hlt)
      simp only [decide_eq_true_eq]
      rw [if_neg (by simp), if_neg (by simpa using hvh), if_pos (by simpa using h)]
      simp [h, lt_of_le_of_lt h hlt]
    · simp only [decide_eq_true_eq]
      rw [if_neg (by simp)]
      by_cases hvh : value ≥ hi
      · rw [if_pos (by simpa using hvh)]
        simp [not_le.mpr h]
      · rw [if_neg (by simpa using hvh), if_neg (by simpa using not_le.mpr h)]
        simp [not_le.mpr h]
  · rcases le_or_lt value lo with h | h
    · have hvh : ¬ (value ≥ hi) := not_le.mpr (lt_of_le_of_lt h hlt)
      simp only [decide_eq_true_eq]
      rw [if_neg (by simp), if_neg (by simpa using hvh), if_pos (by simpa using h)]
      simp [not_lt.mpr h]
    · simp only [decide_eq_true_eq]
      rw [if_neg (by simp)]
      by_cases hvh : value ≥ hi
      · rw [if_pos (by simpa using hvh)]
        simp [not_lt.mpr hvh]
      · rw [if_neg (by simpa using hvh), if_neg (by simpa using not_le.mpr h)]
        simp [h, not_le.mp hvh]

/-- Witness for `determine_stock_status_spec` at `value = 20, low = 10, high = 50`
(the container example from the design document: status MEDIUM). -/
theorem determine_stock_status_spec_witness :
    (10 : ℚ) < 50 ∧
    (determine_stock_status 20 (some 10) (some 50) = some StockStatus.medium ↔
      (10 : ℚ) < 20 ∧ (20 : ℚ) < 50) := by
  exact ⟨by norm_num, (determine_stock_status_spec 20 10 50 (by norm_num)).2.2.1⟩

/-! ### Frame lemmas for the stat updaters -/

theorem update_container_status_units (db : Db) (i : String) (s : Option String) :
    (update_container_status db i s).units = db.units := by
  unfold update_container_status
  cases db.container_stats.find? (fun r => r.item_id == i) with
  | none => rfl
  | some cs => dsimp only; split <;> rfl

theorem update_largeitem_status_units (db : Db) (i : String) (s : Option String) :
    (update_largeitem_status db i s).units = db.units := by
  unfold update_largeitem_status
  cases db.largeitem_stats.find? (fun r => r.item_id == i) with
  | none => rfl
  | some ls => dsimp only; split <;> rfl

theorem update_partition_status_units (db : Db) (i : String) (s : Option String) :
    (update_partition_status db i s).units = db.units := by
  unfold update_partition_status
  cases db.partition_stats.find? (fun r => r.item_id == i) with
  | none => rfl
  | some ps => dsimp only; split <;> rfl

theorem update_container_status_sections (db : Db) (i : String) (s : Option String) :
    (update_container_status db i s).sections = db.sections := by
  unfold update_container_status
  cases db.container_stats.find? (fun r => r.item_id == i) with
  | none => rfl
  | some cs => dsimp only; split <;> rfl

theorem update_largeitem_status_sections (db : Db) (i : String) (s : Option String) :
    (update_largeitem_status db i s).sections = db.sections := by
  unfold update_largeitem_status
  cases db.largeitem_stats.find? (fun r => r.item_id == i) with
  | none => rfl
  | some ls => dsimp only; split <;> rfl

theorem update_partition_status_sections (db : Db) (i : String) (s : Option String) :
    (update_partition_status db i s).sections = db.sections := by
  unfold update_partition_status
  cases db.partition_stats.find? (fun r => r.item_id == i) with
  | none => rfl
  | some ps => dsimp only; split <;> rfl

theorem update_container_status_items (db : Db) (i : String) (s : Option String) :
    (update_container_status db i s).items = db.items := by
  unfold update_container_status
  cases db.container_stats.find? (fun r => r.item_id == i) with
  | none => rfl
  | some cs => dsimp only; split <;> rfl

theorem update_largeitem_status_items (db : Db) (i : String) (s : Option String) :
    (update_largeitem_status db i s).items = db.items := by
  unfold update_largeitem_status
  cases db.largeitem_stats.find? (fun r => r.item_id == i) with
  | none => rfl
  | some ls => dsimp only; split <;> rfl

theorem update_partition_status_items (db : Db) (i : String) (s : Option String) :
    (update_partition_status db i s).items = db.items := by
  unfold update_partition_status
  cases db.partition_stats.find? (fun r => r.item_id == i) with
  | none => rfl
  | some ps => dsimp only; split <;> rfl

theorem update_container_status_tags (db : Db) (i : String) (s : Option String) :
    (update_container_status db i s).tags = db.tags := by
  unfold update_container_status
  cases db.container_stats.find? (fun r => r.item_id == i) with
  | none => rfl
  | some cs => dsimp only; split <;> rfl

theorem update_largeitem_status_tags (db : Db) (i : String) (s : Option String) :
    (update_largeitem_status db i s).tags = db.tags := by
  unfold update_largeitem_status
  cases db.largeitem_stats.find? (fun r => r.item_id == i) with
  | none => rfl
  | some ls => dsimp only; split <;> rfl

theorem update_partition_status_tags (db : Db) (i : String) (s : Option String) :
    (update_partition_status db i s).tags = db.tags := by
  unfold update_partition_status
  cases db.partition_stats.find? (fun r => r.item_id == i) with
  | none => rfl
  | some ps => dsimp only; split <;> rfl

/-! ### Inversion of the generic update and fixpoint lemmas -/

/-- What a successful generic update commits: the unit row is rewritten in
place (same id and type, item id taken from the payload), and the items and
stat/history tables are untouched. -/
theorem update_entity_ok_some_inv (db : Db) (ut : ItemType) (eid : String)
    (ud : EntityUpdateData) (exp : ItemType) (db1 : Db) (ent' : UnitRow)
    (h : update_entity_with_rfid_and_storage db ut eid ud exp = .ok (some (db1, ent'))) :
    ∃ ent, db.units.find? (fun u => u.utype == ut && u.id == eid) = some ent ∧
      ent'.utype = ent.utype ∧ ent'.id = ent.id ∧
      ent'.item_id = ud.item_id.getD ent.item_id ∧
      db1.units = modifyHead (fun u => u.utype == ut && u.id == eid)
        (fun _ => ent') db.units ∧
      db1.items = db.items ∧
      db1.container_stats = db.container_stats ∧
      db1.largeitem_stats = db.largeitem_stats ∧
      db1.history = db.history := by
  unfold update_entity_with_rfid_and_storage at h
  cases hfind : db.units.find? (fun u => u.utype == ut && u.id == eid) with
  | none => rw [hfind] at h; exact absurd h (by simp)
  | some ent =>
    rw [hfind] at h
    refine ⟨ent, rfl, ?_⟩
    simp only [bind, Except.bind] at h
    repeat' split at h
    all_goals simp_all
    all_goals (obtain ⟨hdb, hent⟩ := h; subst hdb; subst hent; simp)

theorem create_container_fixpoint (db : Db) (p : ContainerCreatePayload) (db' : Db)
    (h : create_container db p = .ok db') (s : Option String) :
    update_container_status db' p.item_id s = db' := by
  unfold create_container at h
  dsimp only at h
  split at h
  · exact Except.noConfusion h
  · simp only [Except.ok.injEq] at h
    subst h
    exact update_container_status_idem _ _ _ _

theorem update_container_fixpoint (db : Db) (cid : String)
    (p : ContainerUpdatePayload) (db' : Db)
    (h : update_container db cid p = .ok (some db')) (owner : String)
    (howner : container_owner db' cid = some owner) (s : Option String) :
    update_container_status db' owner s = db' := by
  unfold update_container at h
  dsimp only at h
  split at h
  · exact Except.noConfusion h
  · simp at h
  · rename_i db1 ent' heq
    simp only [Except.ok.injEq, Option.some.injEq] at h
    subst h
    obtain ⟨ent, hfind, hut, hid, hitem, hunits, _, _, _, _⟩ :=
      update_entity_ok_some_inv _ _ _ _ _ _ _ heq
    have hp : (fun u : UnitRow => u.utype == ItemType.container && u.id == cid) ent'
        = true := by
      have := List.find?_some hfind
      simp only [Bool.and_eq_true, beq_iff_eq] at this ⊢
      exact ⟨by rw [hut, this.1], by rw [hid, this.2]⟩
    have hfind' : (update_container_status db1 ent'.item_id
          (some "Return Container")).units.find?
          (fun u => u.utype == ItemType.container && u.id == cid) = some ent' := by
      rw [update_container_status_units, hunits, find?_modifyHead]
      · rw [hfind]; rfl
      · exact fun a _ => hp
    have howner' : owner = ent'.item_id := by
      unfold container_owner at howner
      rw [hfind'] at howner
      simpa using howner.symm
    subst howner'
    exact update_container_status_idem _ _ _ _

theorem delete_container_fixpoint (db : Db) (cid : String) (db' : Db)
    (h : delete_container db cid = some db') (owner : String)
    (howner : container_owner db cid = some owner) (s : Option String) :
    update_container_status db' owner s = db' := by
  unfold delete_container at h
  dsimp only at h
  split at h
  · exact Option.noConfusion h
  · rename_i db1 ent hdel
    split at h
    · rename_i cur hcur
      simp only [Option.some.injEq] at h
      subst h
      unfold container_owner at howner
      rw [hcur] at howner
      simp only [Option.map_some', Option.some.injEq] at howner
      subst howner
      exact update_container_status_idem _ _ _ _
    · rename_i hcur
      unfold container_owner at howner
      rw [hcur] at howner
      exact Option.noConfusion howner

theorem create_large_item_fixpoint (db : Db) (p : LargeItemCreatePayload) (db' : Db)
    (h : create_large_item db p = .ok db') (s : Option String) :
    update_largeitem_status db' p.item_id s = db' := by
  unfold create_large_item at h
  dsimp only at h
  split at h
  · exact Except.noConfusion h
  · simp only [Except.ok.injEq] at h
    subst h
    exact update_largeitem_status_idem _ _ _ _

theorem update_large_item_fixpoint (db : Db) (lid : String)
    (p : LargeItemUpdatePayload) (db' : Db)
    (h : update_large_item db lid p = .ok (some db')) (owner : String)
    (howner : large_item_owner db' lid = some owner) (s : Option String) :
    update_largeitem_status db' owner s = db' := by
  unfold update_large_item at h
  dsimp only at h
  split at h
  · exact Except.noConfusion h
  · simp at h
  · rename_i db1 ent' heq
    simp only [Except.ok.injEq, Option.some.injEq] at h
    subst h
    obtain ⟨ent, hfind, hut, hid, hitem, hunits, _, _, _, _⟩ :=
      update_entity_ok_some_inv _ _ _ _ _ _ _ heq
    have hp : (fun u : UnitRow => u.utype == ItemType.large_item && u.id == lid) ent'
        = true := by
      have := List.find?_some hfind
      simp only [Bool.and_eq_true, beq_iff_eq] at this ⊢
      exact ⟨by rw [hut, this.1], by rw [hid, this.2]⟩
    have hfind' : (update_largeitem_status db1 ent'.item_id
          (some "Return Large Item")).units.find?
          (fun u => u.utype == ItemType.large_item && u.id == lid) = some ent' := by
      rw [update_largeitem_status_units, hunits, find?_modifyHead]
      · rw [hfind]; rfl
      · exact fun a _ => hp
    have howner' : owner = ent'.item_id := by
      unfold large_item_owner at howner
      rw [hfind'] at howner
      simpa using howner.symm
    subst howner'
    exact update_largeitem_status_idem _ _ _ _

theorem delete_large_item_fixpoint (db : Db) (lid : String) (db' : Db)
    (h : delete_large_item db lid = some db') (owner : String)
    (howner : large_item_owner db lid = some owner) (s : Option String) :
    update_largeitem_status db' owner s = db' := by
  unfold delete_large_item at h
  dsimp only at h
  split at h
  · exact Option.noConfusion h
  · rename_i db1 ent hdel
    split at h
    · rename_i cur hcur
      simp only [Option.some.injEq] at h
      subst h
      unfold large_item_owner at howner
      rw [hcur] at howner
      simp only [Option.map_some', Option.some.injEq] at howner
      subst howner
      exact update_largeitem_status_idem _ _ _ _
    · rename_i hcur
      unfold large_item_owner at howner
      rw [hcur] at howner
      exact Option.noConfusion howner

/-- **C4 (counterexample).** The claim fails for partitions: a successful
`create_partition` leaves the `PartitionStat` row exactly as it was, and the
state it commits is *not* a fixpoint of the Stat Aggregator — recomputing
would change `total_capacity` from 0 to 10.  No stat recomputation is
invoked anywhere in the partition CRUD. -/
theorem create_partition_skips_aggregator :
    create_partition exPartDb0 exPartCreate = Except.ok exPartDb1 ∧
    exPartDb1.partition_stats = exPartDb0.partition_stats ∧
    update_partition_status exPartDb1 "I1" none ≠ exPartDb1 := by
  refine ⟨by decide, by decide, by decide⟩

/-- **C4 (amended).** After every successful create, update, or delete of a
LargeItem or Container unit, the Stat Aggregator has been invoked for the
unit's owning item (the new owner for updates, the old owner for deletes), so
the committed state is a fixpoint of the corresponding recomputation; the
Partition unit CRUD does not invoke the aggregator (see
`create_partition_skips_aggregator`). -/
theorem cl_unit_crud_invokes_aggregator :
    (∀ db p db', create_container db p = Except.ok db' →
      ∀ s, update_container_status db' p.item_id s = db') ∧
    (∀ db cid p db' owner, update_container db cid p = Except.ok (some db') →
      container_owner db' cid = some owner →
      ∀ s, update_container_status db' owner s = db') ∧
    (∀ db cid db' owner, delete_container db cid = some db' →
      container_owner db cid = some owner →
      ∀ s, update_container_status db' owner s = db') ∧
    (∀ db p db', create_large_item db p = Except.ok db' →
      ∀ s, update_largeitem_status db' p.item_id s = db') ∧
    (∀ db lid p db' owner, update_large_item db lid p = Except.ok (some db') →
      large_item_owner db' lid = some owner →
      ∀ s, update_largeitem_status db' owner s = db') ∧
    (∀ db lid db' owner, delete_large_item db lid = some db' →
      large_item_owner db lid = some owner →
      ∀ s, update_largeitem_status db' owner s = db') :=
  ⟨fun db p db' h s => create_container_fixpoint db p db' h s,
   fun db cid p db' owner h howner s => update_container_fixpoint db cid p db' h owner howner s,
   fun db cid db' owner h howner s => delete_container_fixpoint db cid db' h owner howner s,
   fun db p db' h s => create_large_item_fixpoint db p db' h s,
   fun db lid p db' owner h howner s => update_large_item_fixpoint db lid p db' h owner howner s,
   fun db lid db' owner h howner s => delete_large_item_fixpoint db lid db' h owner howner s⟩

/-- Witness for `cl_unit_crud_invokes_aggregator`: the concrete container
registration of the design document's worked example commits a state that is
a fixpoint of the container stat recomputation. -/
theorem cl_unit_crud_invokes_aggregator_witness :
    update_container_status exContDb1 "IC" (some "again") = exContDb1 :=
  cl_unit_crud_invokes_aggregator.1 exContDb0 exContCreate exContDb1
    (by decide) (some "again")

/-- **C5.** RFID exclusivity fails: from a well-formed committed state where
tags T1 and T2 are each assigned to one partition, `update_partition` with a
payload that only carries `rfid_tag_id = "T2"` *succeeds* (no TagUnavailable
error), silently repoints P1 at the already-assigned tag T2 — leaving two
units referencing T2 while its `assigned` flag is true — and releases
nothing.  This contradicts the function's own docstring ("RFID tag cannot be
changed"): the `setattr` loop applies every payload key, `rfid_tag_id`
included, with no availability check. -/
theorem update_partition_breaks_rfid_exclusivity :
    update_partition exRfidDb0 "P1" exRfidUpdate =
      Except.ok (some (exRfidDb1, exRfidP1')) ∧
    (exRfidDb1.units.filter (fun u => u.rfid_tag_id == "T2")).length = 2 ∧
    exRfidDb1.tags.find? (fun t => t.id == "T2") =
      some { id := "T2", assigned := true } := by
  refine ⟨by decide, by decide, by decide⟩

/-! ### Container stat recomputation (C3) -/

/-- Field values of the recomputed container stat row: configuration fields
are preserved, `total_weight` is the sum of the item's container weights,
`total_quantity` is the rounded quotient only for a configured *positive*
per-item weight, and `stock_status` derives from the total weight. -/
theorem container_stat_target_fields (db : Db) (i : String) (cs : ContainerStatRow) :
    (container_stat_target db i cs).container_item_weight = cs.container_item_weight ∧
    (container_stat_target db i cs).container_weight = cs.container_weight ∧
    (container_stat_target db i cs).high_threshold = cs.high_threshold ∧
    (container_stat_target db i cs).low_threshold = cs.low_threshold ∧
    (container_stat_target db i cs).total_weight =
      some ((containersOf db i).map (fun u => u.items_weight.getD 0)).sum ∧
    (container_stat_target db i cs).total_quantity =
      (match cs.container_item_weight with
       | some w =>
           if 0 < w then
             some (pyRound
               (((containersOf db i).map (fun u => u.items_weight.getD 0)).sum / w))
           else none
       | none => none) ∧
    (container_stat_target db i cs).stock_status =
      determine_stock_status
        ((containersOf db i).map (fun u => u.items_weight.getD 0)).sum
        cs.low_threshold cs.high_threshold := by
  refine ⟨rfl, rfl, rfl, rfl, rfl, ?_, rfl⟩
  cases h : cs.container_item_weight with
  | none => simp [container_stat_target, h]
  | some w => simp [container_stat_target, h]

/-- After `_update_container_status`, the stat row found for the item is the
recomputed row. -/
theorem update_container_status_find (db : Db) (i : String) (s : Option String)
    (cs : ContainerStatRow)
    (hfind : db.container_stats.find? (fun r => r.item_id == i) = some cs) :
    (update_container_status db i s).container_stats.find?
      (fun r => r.item_id == i) = some (container_stat_target db i cs) := by
  unfold update_container_status
  rw [hfind]
  dsimp only
  by_cases hch : container_stat_target db i cs = cs
  · rw [if_pos hch, hch]
    exact hfind
  · rw [if_neg hch]
    show (modifyHead _ _ db.container_stats).find? _ = _
    rw [find?_modifyHead, hfind]
    · rfl
    · intro a _
      have hp := List.find?_some hfind
      simpa [container_stat_target_item_id] using hp

/-- **C3 (counterexample).** With `container_item_weight = -1` configured
(the schemas place no lower bound) and a single container of weight 5, the
recomputation stores `total_quantity = None`, whereas the claim's rule —
`round(total_weight / container_item_weight)` whenever the weight is
configured — demands `round(5 / -1) = -5`.  The code computes the quotient
only under `container_item_weight > 0`. -/
theorem container_quantity_counterexample :
    (update_container_status exNegDb0 "IN" none).container_stats.find?
        (fun r => r.item_id == "IN") =
      some { item_id := "IN"
             container_item_weight := some (-1)
             container_weight := none
             total_weight := some 5
             total_quantity := none
             high_threshold := some 10
             low_threshold := some 1
             stock_status := some StockStatus.medium } ∧
    spec_container_total_quantity (some (-1)) 5 = some (-5) ∧
    (none : Option ℤ) ≠ some (-5) := by
  refine ⟨by decide, by decide, by decide⟩

/-- **C3 (amended).** For every item with a `ContainerStat` row, the
container stat recomputation sets `total_weight` to the sum of `items_weight`
over the item's containers, sets `total_quantity` to
`round(total_weight / container_item_weight)` when `container_item_weight`
is configured *and positive* (and to null when it is unset or not positive),
and sets `stock_status` to
`determine_status(total_weight, low_threshold, high_threshold)`. -/
theorem update_container_status_spec (db : Db) (item_id : String)
    (src : Option String) (cs : ContainerStatRow)
    (hfind : db.container_stats.find? (fun r => r.item_id == item_id) = some cs) :
    ∃ cs', (update_container_status db item_id src).container_stats.find?
        (fun r => r.item_id == item_id) = some cs' ∧
      cs'.total_weight =
        some ((containersOf db item_id).map (fun u => u.items_weight.getD 0)).sum ∧
      cs'.total_quantity =
        (match cs.container_item_weight with
         | some w =>
             if 0 < w then
               some (pyRound
                 (((containersOf db item_id).map (fun u => u.items_weight.getD 0)).sum / w))
             else none
         | none => none) ∧
      cs'.stock_status =
        determine_stock_status
          ((containersOf db item_id).map (fun u => u.items_weight.getD 0)).sum
          cs.low_threshold cs.high_threshold :=
  ⟨container_stat_target db item_id cs,
   update_container_status_find db item_id src cs hfind,
   (container_stat_target_fields db item_id cs).2.2.2.2.1,
   (container_stat_target_fields db item_id cs).2.2.2.2.2.1,
   (container_stat_target_fields db item_id cs).2.2.2.2.2.2⟩

/-- Witness for `update_container_status_spec` at the design document's
worked container example (`container_item_weight = 2`, one container of
weight 20). -/
theorem update_container_status_spec_witness :
    ∃ cs', (update_container_status exContDb0 "IC" none).container_stats.find?
        (fun r => r.item_id == "IC") = some cs' ∧
      cs'.total_weight =
        some ((containersOf exContDb0 "IC").map (fun u => u.items_weight.getD 0)).sum ∧
      cs'.total_quantity =
        (match (some 2 : Option ℚ) with
         | some w =>
             if 0 < w then
               some (pyRound
                 (((containersOf exContDb0 "IC").map (fun u => u.items_weight.getD 0)).sum / w))
             else none
         | none => none) ∧
      cs'.stock_status =
        determine_stock_status
          ((containersOf exContDb0 "IC").map (fun u => u.items_weight.getD 0)).sum
          (some 10) (some 50) :=
  update_container_status_spec exContDb0 "IC" none
    { item_id := "IC"
      container_item_weight := some 2
      container_weight := some 1
      total_weight := some 0
      total_quantity := some 0
      high_threshold := some 50
      low_threshold := some 10
      stock_status := some StockStatus.low }
    (by decide)

/-! ### The container branch of `update_item` (C10) -/

/-- Field-level behaviour of the payload application: the per-item weight is
overwritten with the payload value unconditionally (null included), the
container weight and both thresholds only when the payload value is
non-null; the row's item id is untouched. -/
theorem apply_container_stat_inputs_fields (cs : ContainerStatRow)
    (p : ItemUpdateStatInputs) :
    (apply_container_stat_inputs cs p).item_id = cs.item_id ∧
    (apply_container_stat_inputs cs p).container_item_weight =
      p.container_item_weight ∧
    (apply_container_stat_inputs cs p).container_weight =
      (match p.container_weight with
       | some w => some w
       | none => cs.container_weight) ∧
    (apply_container_stat_inputs cs p).high_threshold =
      (match p.container_high with
       | some h => some h
       | none => cs.high_threshold) ∧
    (apply_container_stat_inputs cs p).low_threshold =
      (match p.container_low with
       | some l => some l
       | none => cs.low_threshold) := by
  cases hw : p.container_weight <;> cases hh : p.container_high <;>
    cases hl : p.container_low <;> cases hs : p.container_stock_status <;>
      simp [apply_container_stat_inputs, hw, hh, hl, hs]

/-- **C10.** For every `update_item` call on an item of type CONTAINER with
an existing stat row, the committed stat row's `container_item_weight` is
unconditionally overwritten with the payload's value — in particular set to
null when the payload omits the field — while `container_weight`,
`high_threshold` and `low_threshold` are overwritten only when the payload
supplies a non-null value; the subsequent recomputation preserves all four
fields. -/
theorem update_item_container_overwrite (db : Db) (item_id : String)
    (p : ItemUpdateStatInputs) (cs : ContainerStatRow)
    (hfind : db.container_stats.find? (fun r => r.item_id == item_id) = some cs) :
    ∃ cs', (update_item_container_stats db item_id p).container_stats.find?
        (fun r => r.item_id == item_id) = some cs' ∧
      cs'.container_item_weight = p.container_item_weight ∧
      cs'.container_weight =
        (match p.container_weight with
         | some w => some w
         | none => cs.container_weight) ∧
      cs'.high_threshold =
        (match p.container_high with
         | some h => some h
         | none => cs.high_threshold) ∧
      cs'.low_threshold =
        (match p.container_low with
         | some l => some l
         | none => cs.low_threshold) := by
  unfold update_item_container_stats
  rw [hfind]
  dsimp only
  have hp : ∀ a : ContainerStatRow, (a.item_id == item_id) = true →
      ((apply_container_stat_inputs a p).item_id == item_id) = true := by
    intro a ha
    rw [(apply_container_stat_inputs_fields a p).1]
    exact ha
  have hfind1 :
      (modifyHead (fun r => r.item_id == item_id)
          (fun cs => apply_container_stat_inputs cs p) db.container_stats).find?
        (fun r => r.item_id == item_id) = some (apply_container_stat_inputs cs p) := by
    rw [find?_modifyHead, hfind]
    · rfl
    · exact hp
  refine ⟨container_stat_target
      { db with
        container_stats := modifyHead (fun r => r.item_id == item_id)
          (fun cs => apply_container_stat_inputs cs p) db.container_stats }
      item_id (apply_container_stat_inputs cs p),
    update_container_status_find _ item_id _ _ hfind1, ?_, ?_, ?_, ?_⟩
  · rw [(container_stat_target_fields _ _ _).1,
      (apply_container_stat_inputs_fields cs p).2.1]
  · rw [(container_stat_target_fields _ _ _).2.1,
      (apply_container_stat_inputs_fields cs p).2.2.1]
  · rw [(container_stat_target_fields _ _ _).2.2.1,
      (apply_container_stat_inputs_fields cs p).2.2.2.1]
  · rw [(container_stat_target_fields _ _ _).2.2.2.1,
      (apply_container_stat_inputs_fields cs p).2.2.2.2]

/-- Witness for `update_item_container_overwrite`: an update that omits
`container_item_weight` but supplies `container_weight = 7` — the configured
per-item weight 2 is wiped to null, the container weight is updated, the
thresholds stay. -/
theorem update_item_container_overwrite_witness :
    ∃ cs', (update_item_container_stats exContDb0 "IC"
        { container_item_weight := none
          container_weight := some 7
          container_high := none
          container_low := none
          container_stock_status := none }).container_stats.find?
        (fun r => r.item_id == "IC") = some cs' ∧
      cs'.container_item_weight = none ∧
      cs'.container_weight =
        (match (some 7 : Option ℚ) with
         | some w => some w
         | none => some 1) ∧
      cs'.high_threshold =
        (match (none : Option ℚ) with
         | some h => some h
         | none => some 50) ∧
      cs'.low_threshold =
        (match (none : Option ℚ) with
         | some l => some l
         | none => some 10) :=
  update_item_container_overwrite exContDb0 "IC"
    { container_item_weight := none
      container_weight := some 7
      container_high := none
      container_low := none
      container_stock_status := none }
    { item_id := "IC"
      container_item_weight := some 2
      container_weight := some 1
      total_weight := some 0
      total_quantity := some 0
      high_threshold := some 50
      low_threshold := some 10
      stock_status := some StockStatus.low }
    (by decide)

/-- **C7.** The per-type snapshot counter is *not* collision-free: after ten
partition snapshots the table holds ISH-P1 … ISH-P10, but `ORDER BY id DESC`
compares ids lexicographically, so the greatest id is ISH-P9 (not ISH-P10);
the generator therefore computes 9 + 1 and assigns the *eleventh* snapshot
the id ISH-P10, which is already a primary key in the table — the issued
number is not strictly greater than every previously issued number. -/
theorem history_id_collision :
    history_ids_after ItemType.partition 10 =
      ["ISH-P1", "ISH-P2", "ISH-P3", "ISH-P4", "ISH-P5",
       "ISH-P6", "ISH-P7", "ISH-P8", "ISH-P9", "ISH-P10"] ∧
    generate_item_stat_history_id (history_ids_after ItemType.partition 10)
      ItemType.partition = "ISH-P10" ∧
    "ISH-P10" ∈ history_ids_after ItemType.partition 10 := by
  refine ⟨by decide, by decide, by decide⟩

/-- **C9.** A history-write failure does *not* leave the primary stat update
committed: with committed totals 0/0 and recomputed totals 5/10 (HIGH), a
raising history write makes `_persist_if_changed` return with the committed
stat row exactly as before — the `except` branch's `db.rollback()` discards
the unflushed stat field changes, `db.add(obj)` does not restore them, and
the final commit flushes nothing.  The same inputs without the failure
commit totals 5/10 together with one history row, in a single commit — so a
history insert failing at flush time would abort the stat update too. -/
theorem history_failure_loses_stat_update :
    persist_if_changed_session exSess0 exChanges true (some "Register Partition") =
      exSess0 ∧
    exSess0.committed.total_quantity = some 0 ∧
    (persist_if_changed_session exSess0 exChanges false
        (some "Register Partition")).committed.total_quantity = some 5 ∧
    (persist_if_changed_session exSess0 exChanges false
        (some "Register Partition")).committed_history.length = 1 := by
  refine ⟨by decide, by decide, by decide, by decide⟩

end Inventory

namespace Inventory

theorem modifyHead_of_find?_none (p : α → Bool) (f : α → α) (l : List α)
    (h : l.find? p = none) : modifyHead p f l = l := by
  induction l with
  | nil => rfl
  | cons a as ih =>
    rw [List.find?_cons] at h
    by_cases hpa : p a = true
    · simp [hpa] at h
    · have hpa' : p a = false := by simpa using hpa
      rw [hpa'] at h
      rw [modifyHead_cons, if_neg (by simp [hpa']), ih h]

theorem modifyHead_eq_map (p : α → Bool) (f : α → α) (l : List α)
    (h : (l.filter p).length ≤ 1) :
    modifyHead p f l = l.map (fun a => if p a then f a else a) := by
  induction l with
  | nil => rfl
  | cons a as ih =>
    rw [List.filter_cons] at h
    by_cases hpa : p a = true
    · rw [if_pos hpa] at h
      have hnil : as.filter p = [] := by
        apply List.length_eq_zero.mp
        simp only [List.length_cons] at h
        omega
      have hall : ∀ x ∈ as, p x = false := by
        intro x hx
        by_cases hpx : p x = true
        · exfalso
          have : x ∈ as.filter p := List.mem_filter.mpr ⟨hx, hpx⟩
          simp [hnil] at this
        · simpa using hpx
      rw [modifyHead_cons, if_pos hpa, List.map_cons, if_pos hpa]
      congr 1
      symm
      calc as.map (fun x => if p x then f x else x) = as.map id := by
            apply List.map_congr_left
            intro x hx
            simp [hall x hx]
        _ = as := List.map_id as
    · have hpa' : p a = false := by simpa using hpa
      rw [if_neg (by simp [hpa'])] at h
      rw [modifyHead_cons, if_neg (by simp [hpa']), List.map_cons,
        if_neg (by simp [hpa']), ih h]

theorem find?_decomp (p : α → Bool) (l : List α) (a : α)
    (h : l.find? p = some a) :
    ∃ l₁ l₂, l = l₁ ++ a :: l₂ ∧ (∀ x ∈ l₁, p x = false) ∧
      (∀ f, modifyHead p f l = l₁ ++ f a :: l₂) ∧
      l.eraseP p = l₁ ++ l₂ := by
  induction l with
  | nil => simp at h
  | cons b bs ih =>
    by_cases hpb : p b = true
    · rw [List.find?_cons_of_pos _ hpb] at h
      obtain rfl : b = a := by simpa using h
      exact ⟨[], bs, rfl, by simp,
        fun f => by simp [modifyHead_cons, hpb],
        by simp [List.eraseP_cons, hpb]⟩
    · have hpb' : p b = false := by simpa using hpb
      rw [List.find?_cons_of_neg _ (by simp [hpb'])] at h
      obtain ⟨l₁, l₂, rfl, h1, h2, h3⟩ := ih h
      refine ⟨b :: l₁, l₂, rfl, ?_, ?_, ?_⟩
      · intro x hx
        rcases List.mem_cons.mp hx with rfl | hx'
        · exact hpb'
        · exact h1 x hx'
      · intro f
        rw [modifyHead_cons, if_neg (by simp [hpb']), h2 f]
        rfl
      · rw [List.eraseP_cons, hpb', h3]
        rfl

theorem filter_id_length_le_one (l : List SectionRow)
    (hnd : (l.map (fun s => s.id)).Nodup) (sid : String) :
    (l.filter (fun s => s.id == sid)).length ≤ 1 := by
  induction l with
  | nil => simp
  | cons s ss ih =>
    simp only [List.map_cons, List.nodup_cons] at hnd
    rw [List.filter_cons]
    by_cases hs : s.id = sid
    · rw [if_pos (by simp [hs])]
      have hnil : ss.filter (fun x => x.id == sid) = [] := by
        apply List.eq_nil_of_length_eq_zero
        by_contra hne
        have : ∃ x, x ∈ ss.filter (fun x => x.id == sid) := by
          cases hfl : ss.filter (fun x => x.id == sid) with
          | nil => exact absurd (by simp [hfl]) hne
          | cons y ys => exact ⟨y, by simp [hfl]⟩
        obtain ⟨x, hx⟩ := this
        obtain ⟨hxmem, hxid⟩ := List.mem_filter.mp hx
        exact hnd.1 (by
          rw [hs, ← (by simpa using hxid : x.id = sid)]
          exact List.mem_map.mpr ⟨x, hxmem, rfl⟩)
      simp [hnil]
    · rw [if_neg (by simp [hs])]
      exact ih hnd.2

end Inventory

namespace Inventory

theorem secDelta_nil (sid : String) : secDelta [] sid = 0 := rfl

theorem secDelta_cons (sd : String × ℤ) (sc : List (String × ℤ)) (sid : String) :
    secDelta (sd :: sc) sid =
      (if sd.1 == sid then sd.2 else 0) + secDelta sc sid := by
  simp only [secDelta, List.filter_cons]
  by_cases h : sd.1 == sid
  · simp [h]
  · simp [h]

theorem applySecChanges_eq_map (sections : List SectionRow)
    (sc : List (String × ℤ))
    (hnd : (sections.map (fun s => s.id)).Nodup) :
    applySecChanges sections sc =
      sections.map (fun s => { s with used_units := s.used_units + secDelta sc s.id }) := by
  induction sc generalizing sections with
  | nil =>
    simp only [applySecChanges, List.foldl_nil, secDelta_nil, add_zero]
    symm
    calc sections.map (fun s => { s with used_units := s.used_units }) =
          sections.map id := by
            apply List.map_congr_left
            intro x _
            rfl
      _ = sections := List.map_id sections
  | cons sd sc ih =>
    show applySecChanges
        (modifyHead (fun se => se.id == sd.1)
          (fun se => { se with used_units := se.used_units + sd.2 }) sections) sc = _
    have hmap := modifyHead_eq_map (fun se => se.id == sd.1)
      (fun se => { se with used_units := se.used_units + sd.2 }) sections
      (filter_id_length_le_one sections hnd sd.1)
    rw [hmap]
    have hnd' : ((sections.map (fun s =>
        if s.id == sd.1 then { s with used_units := s.used_units + sd.2 } else s)).map
          (fun s => s.id)).Nodup := by
      rw [List.map_map]
      have : ((fun s : SectionRow => s.id) ∘ fun s =>
          if s.id == sd.1 then { s with used_units := s.used_units + sd.2 } else s) =
          (fun s : SectionRow => s.id) := by
        funext s
        by_cases h : s.id = sd.1 <;> simp [h]
      rw [this]
      exact hnd
    rw [ih _ hnd', List.map_map]
    apply List.map_congr_left
    intro s _
    by_cases h : (s.id == sd.1) = true
    · have h' : s.id = sd.1 := by simpa using h
      simp [Function.comp, h, h', secDelta_cons, add_assoc]
    · have h' : ¬ (s.id = sd.1) := by simpa using h
      have h'' : ¬ (sd.1 = s.id) := fun e => h' e.symm
      simp [Function.comp, h, h', h'', secDelta_cons]

theorem sectionLoad_nil (items : List ItemRow) (sid : String) :
    sectionLoad items [] sid = 0 := rfl

theorem sectionLoad_cons (items : List ItemRow) (u : UnitRow) (us : List UnitRow)
    (sid : String) :
    sectionLoad items (u :: us) sid =
      (if u.storage_section_id == sid then unitFootprint items u else 0) +
        sectionLoad items us sid := by
  by_cases h : u.storage_section_id == sid
  · simp [sectionLoad, List.filter_cons, h]
  · simp [sectionLoad, List.filter_cons, h]

theorem sectionLoad_append (items : List ItemRow) (u1 u2 : List UnitRow) (sid : String) :
    sectionLoad items (u1 ++ u2) sid =
      sectionLoad items u1 sid + sectionLoad items u2 sid := by
  simp [sectionLoad, List.filter_append]

theorem unitFootprint_nonneg (items : List ItemRow) (u : UnitRow)
    (hA : ∀ i ∈ items, 0 ≤ i.unit) : 0 ≤ unitFootprint items u := by
  unfold unitFootprint
  split
  · rename_i item hf
    exact hA item (List.mem_of_find?_eq_some hf)
  · exact le_refl 0

theorem sectionLoad_nonneg (items : List ItemRow) (units : List UnitRow) (sid : String)
    (hA : ∀ i ∈ items, 0 ≤ i.unit) : 0 ≤ sectionLoad items units sid := by
  unfold sectionLoad
  apply List.sum_nonneg
  intro x hx
  obtain ⟨u, hu, rfl⟩ := List.mem_map.mp hx
  exact unitFootprint_nonneg items u hA

theorem find?_key_eq {α : Type} (f : α → String) (x : String) (l : List α) (a : α)
    (h : l.find? (fun b => f b == x) = some a) : f a = x := by
  have hp := List.find?_some h
  simpa using hp

theorem modifyHead_map_key {α β : Type} (f : α → β) (p : α → Bool) (g : α → α)
    (hg : ∀ a, f (g a) = f a) (l : List α) :
    (modifyHead p g l).map f = l.map f := by
  induction l with
  | nil => rfl
  | cons a as ih =>
    rw [modifyHead_cons]
    by_cases h : p a
    · simp [h, hg]
    · simp [h, ih]

theorem mem_eq_of_find?_nodup (ss : List SectionRow) (x : String) (os s : SectionRow)
    (hnd : (ss.map (fun se => se.id)).Nodup)
    (hfind : ss.find? (fun se => se.id == x) = some os)
    (hs : s ∈ ss) (hx : s.id = x) : s = os := by
  obtain ⟨l1, l2, heq, hpre, -, -⟩ := find?_decomp _ _ _ hfind
  subst heq
  rcases List.mem_append.mp hs with h1 | h2
  · exact absurd hx (by simpa using hpre s h1)
  · rcases List.mem_cons.mp h2 with rfl | h2'
    · rfl
    · exfalso
      have hos : os.id = x := find?_key_eq (fun se => se.id) x _ os hfind
      have hnd2 := hnd
      rw [List.map_append, List.map_cons] at hnd2
      have := (List.nodup_append.mp hnd2).2.1
      rw [List.nodup_cons] at this
      exact this.1 (List.mem_map.mpr ⟨s, h2', by rw [hx, hos]⟩)

theorem applySecChanges_ids (ss : List SectionRow) (sc : List (String × ℤ))
    (hnd : (ss.map (fun se => se.id)).Nodup) :
    (applySecChanges ss sc).map (fun se => se.id) = ss.map (fun se => se.id) := by
  rw [applySecChanges_eq_map ss sc hnd, List.map_map]
  rfl

/-- Core capacity-ledger step: replacing the found unit row by its update and
applying a `SecChangesOk` change list keeps every section's `used_units`
between its resident load and `total_units`. -/
theorem capinv_applySecChanges (items : List ItemRow) (sections : List SectionRow)
    (units : List UnitRow) (pred : UnitRow → Bool) (ent ent1 : UnitRow)
    (sc : List (String × ℤ))
    (hA : ∀ i ∈ items, 0 ≤ i.unit)
    (hB : (sections.map (fun se => se.id)).Nodup)
    (hC : ∀ s ∈ sections, sectionLoad items units s.id ≤ s.used_units ∧
            s.used_units ≤ s.total_units)
    (hfind : units.find? pred = some ent)
    (hok : SecChangesOk items sections ent ent1 sc) :
    ∀ s ∈ applySecChanges sections sc,
      sectionLoad items (modifyHead pred (fun _ => ent1) units) s.id ≤ s.used_units ∧
        s.used_units ≤ s.total_units := by
  obtain ⟨l1, l2, hdecomp, -, hmod, -⟩ := find?_decomp pred units ent hfind
  rw [hmod (fun _ => ent1)]
  rw [applySecChanges_eq_map sections sc hB]
  intro s' hs'
  obtain ⟨s, hs, rfl⟩ := List.mem_map.mp hs'
  obtain ⟨hload, hle⟩ := hC s hs
  rw [hdecomp, sectionLoad_append, sectionLoad_cons] at hload
  dsimp only
  rw [sectionLoad_append, sectionLoad_cons]
  match sc with
  | [] =>
    obtain ⟨hsec, hfp⟩ := hok
    rw [secDelta_nil, hsec, hfp]
    exact ⟨by omega, by omega⟩
  | [(sid, d)] =>
    obtain ⟨hsid, hsec1, hd, os, hfos, hcap⟩ := hok
    rw [secDelta_cons, secDelta_nil]
    by_cases hx : sid = s.id
    · have hsos : s = os := mem_eq_of_find?_nodup sections sid os s hB hfos hs hx.symm
      subst hsos
      have h1 : (ent.storage_section_id == s.id) = true := by
        rw [← hsid, hx]; exact beq_self_eq_true s.id
      have h2 : (ent1.storage_section_id == s.id) = true := by
        rw [hsec1, ← hsid, hx]; exact beq_self_eq_true s.id
      have h3 : (sid == s.id) = true := by rw [hx]; exact beq_self_eq_true s.id
      rw [h1, if_pos rfl] at hload
      rw [h2, if_pos rfl, h3, if_pos rfl]
      exact ⟨by omega, by omega⟩
    · have h1 : (ent.storage_section_id == s.id) = false := by
        rw [← hsid]; exact beq_eq_false_iff_ne.mpr hx
      have h2 : (ent1.storage_section_id == s.id) = false := by
        rw [hsec1, ← hsid]; exact beq_eq_false_iff_ne.mpr hx
      have h3 : (sid == s.id) = false := beq_eq_false_iff_ne.mpr hx
      rw [h1, if_neg (by simp)] at hload
      rw [h2, if_neg (by simp), h3, if_neg (by simp)]
      exact ⟨by omega, by omega⟩
  | [(osid, a), (nsid, b)] =>
    obtain ⟨hosid, hnsid, hne, ha, hb, ns, hfns, hcap⟩ := hok
    rw [secDelta_cons, secDelta_cons, secDelta_nil]
    have hfp0 : 0 ≤ unitFootprint items ent := unitFootprint_nonneg items ent hA
    by_cases hxo : osid = s.id
    · have hxn : ¬ nsid = s.id := fun h => hne (hxo.trans h.symm)
      have h1 : (ent.storage_section_id == s.id) = true := by
        rw [← hosid, hxo]; exact beq_self_eq_true s.id
      have h2 : (ent1.storage_section_id == s.id) = false := by
        rw [← hnsid]; exact beq_eq_false_iff_ne.mpr hxn
      have h3 : (osid == s.id) = true := by rw [hxo]; exact beq_self_eq_true s.id
      have h4 : (nsid == s.id) = false := beq_eq_false_iff_ne.mpr hxn
      rw [h1, if_pos rfl] at hload
      rw [h2, if_neg (by simp), h3, if_pos rfl, h4, if_neg (by simp)]
      exact ⟨by omega, by omega⟩
    · by_cases hxn : nsid = s.id
      · have hsns : s = ns := mem_eq_of_find?_nodup sections nsid ns s hB hfns hs hxn.symm
        subst hsns
        have h1 : (ent.storage_section_id == s.id) = false := by
          rw [← hosid]; exact beq_eq_false_iff_ne.mpr hxo
        have h2 : (ent1.storage_section_id == s.id) = true := by
          rw [← hnsid, hxn]; exact beq_self_eq_true s.id
        have h3 : (osid == s.id) = false := beq_eq_false_iff_ne.mpr hxo
        have h4 : (nsid == s.id) = true := by rw [hxn]; exact beq_self_eq_true s.id
        rw [h1, if_neg (by simp)] at hload
        rw [h2, if_pos rfl, h3, if_neg (by simp), h4, if_pos rfl]
        exact ⟨by omega, by omega⟩
      · have h1 : (ent.storage_section_id == s.id) = false := by
          rw [← hosid]; exact beq_eq_false_iff_ne.mpr hxo
        have h2 : (ent1.storage_section_id == s.id) = false := by
          rw [← hnsid]; exact beq_eq_false_iff_ne.mpr hxn
        have h3 : (osid == s.id) = false := beq_eq_false_iff_ne.mpr hxo
        have h4 : (nsid == s.id) = false := beq_eq_false_iff_ne.mpr hxn
        rw [h1, if_neg (by simp)] at hload
        rw [h2, if_neg (by simp), h3, if_neg (by simp), h4, if_neg (by simp)]
        exact ⟨by omega, by omega⟩
  | (x :: y :: z :: rest) => exact hok.elim

/-- Successful `Except` bind decomposes into a successful producer and a
successful continuation. -/
theorem except_bind_ok {α β : Type} {E : Except CrudError α}
    {k : α → Except CrudError β} {b : β}
    (h : E >>= k = Except.ok b) : ∃ a, E = Except.ok a ∧ k a = Except.ok b := by
  cases E with
  | error e => exact absurd h (by simp [Bind.bind, Except.bind])
  | ok a => exact ⟨a, rfl, by simpa [Bind.bind, Except.bind] using h⟩

/-- A successful `update_partition` with no `item_id` in the payload found the
row, applied a `SecChangesOk` section-change list, and replaced the row. -/
theorem update_partition_cap_inv (db : Db) (pid : String)
    (ns : Option String) (r : Option String) (q : Option ℤ) (st : Option UnitStatus)
    (db1 : Db) (ent1 : UnitRow)
    (h : update_partition db pid
        { item_id := none, storage_section_id := ns, rfid_tag_id := r
          quantity := q, ustatus := st } = .ok (some (db1, ent1))) :
    ∃ ent sc,
      db.units.find? (fun u => u.utype == ItemType.partition && u.id == pid) = some ent ∧
      SecChangesOk db.items db.sections ent ent1 sc ∧
      db1.items = db.items ∧
      db1.sections = applySecChanges db.sections sc ∧
      db1.units = modifyHead (fun u => u.utype == ItemType.partition && u.id == pid)
        (fun _ => ent1) db.units := by
  unfold update_partition at h
  cases hfind : db.units.find? (fun u => u.utype == ItemType.partition && u.id == pid) with
  | none => rw [hfind] at h; exact absurd h (by simp)
  | some ent =>
  rw [hfind] at h
  obtain ⟨u0, h1, h⟩ := except_bind_ok h
  obtain ⟨sc, h2, h⟩ := except_bind_ok h
  simp only [Except.ok.injEq, Option.some.injEq, Prod.mk.injEq] at h
  obtain ⟨hdb, hent⟩ := h
  refine ⟨ent, sc, rfl, ?_, ?_, ?_, ?_⟩
  · -- SecChangesOk from the section-change branch
    cases hns : ns with
    | none =>
      rw [hns] at h2
      simp only [Except.ok.injEq] at h2
      subst h2
      refine ⟨?_, ?_⟩
      · rw [← hent]
        simp [hns]
      · rw [← hent]
        simp only [unitFootprint, Option.getD_none]
    | some nsid =>
      rw [hns] at h2
      dsimp only at h2
      by_cases hne : nsid ≠ ent.storage_section_id
      · rw [if_pos hne] at h2
        cases hfs : db.sections.find? (fun se => se.id == nsid) with
        | none => rw [hfs] at h2; exact absurd h2 (by simp)
        | some nsec =>
        rw [hfs] at h2
        dsimp only at h2
        cases hfi : db.items.find? (fun i => i.id == ent.item_id) with
        | none => rw [hfi] at h2; exact absurd h2 (by simp)
        | some item =>
        rw [hfi] at h2
        dsimp only at h2
        by_cases hcap : nsec.used_units + item.unit > nsec.total_units
        · rw [if_pos hcap] at h2; exact absurd h2 (by simp)
        rw [if_neg hcap] at h2
        simp only [Except.ok.injEq] at h2
        subst h2
        have hfp : unitFootprint db.items ent = item.unit := by
          unfold unitFootprint; rw [hfi]
        have hfp1 : unitFootprint db.items ent1 = item.unit := by
          unfold unitFootprint
          rw [← hent]
          simp [hfi]
        refine ⟨rfl, ?_, ?_, by rw [hfp], by rw [hfp1], nsec, hfs, by omega⟩
        · rw [← hent]; simp [hns]
        · exact fun hx => hne hx.symm
      · rw [if_neg hne] at h2
        simp only [Except.ok.injEq] at h2
        subst h2
        have hx : nsid = ent.storage_section_id := by
          by_contra hc
          exact hne hc
        refine ⟨?_, ?_⟩
        · rw [← hent]
          simp [hns, hx]
        · rw [← hent]
          simp only [unitFootprint, Option.getD_none]
  · rw [← hdb]
  · rw [← hdb]
  · rw [← hdb, ← hent]
/-- A successful generic update found the row, applied a `SecChangesOk`
section-change list, and replaced the row. -/
theorem update_entity_cap_inv (db : Db) (ut : ItemType) (eid : String)
    (ud : EntityUpdateData) (exp : ItemType) (db1 : Db) (ent1 : UnitRow)
    (h : update_entity_with_rfid_and_storage db ut eid ud exp = .ok (some (db1, ent1))) :
    ∃ ent sc,
      db.units.find? (fun u => u.utype == ut && u.id == eid) = some ent ∧
      SecChangesOk db.items db.sections ent ent1 sc ∧
      db1.items = db.items ∧
      db1.sections = applySecChanges db.sections sc ∧
      db1.units = modifyHead (fun u => u.utype == ut && u.id == eid)
        (fun _ => ent1) db.units := by
  unfold update_entity_with_rfid_and_storage at h
  cases hfind : db.units.find? (fun u => u.utype == ut && u.id == eid) with
  | none => rw [hfind] at h; exact absurd h (by simp)
  | some ent =>
  rw [hfind] at h
  obtain ⟨nig, h1, h⟩ := except_bind_ok h
  obtain ⟨nsg, h2, h⟩ := except_bind_ok h
  obtain ⟨osec, h3, h⟩ := except_bind_ok h
  obtain ⟨nsec, h4, h⟩ := except_bind_ok h
  obtain ⟨sc, h5, h⟩ := except_bind_ok h
  obtain ⟨ntc, h6, h⟩ := except_bind_ok h
  simp only [Except.ok.injEq, Option.some.injEq, Prod.mk.injEq] at h
  obtain ⟨hdb, hent⟩ := h
  have hos : db.sections.find? (fun se => se.id == ent.storage_section_id) = some osec := by
    cases hfs : db.sections.find? (fun se => se.id == ent.storage_section_id) with
    | none => rw [hfs] at h3; exact absurd h3 (by simp)
    | some s0 =>
      rw [hfs] at h3
      dsimp only at h3
      simp only [Except.ok.injEq] at h3
      rw [h3]
  have hosid : osec.id = ent.storage_section_id :=
    find?_key_eq (fun se => se.id) ent.storage_section_id db.sections osec hos
  refine ⟨ent, sc, rfl, ?_, by rw [← hdb], by rw [← hdb], by rw [← hdb, ← hent]⟩
  cases huss : ud.storage_section_id with
  | none =>
    rw [huss] at h2
    dsimp only at h2
    simp only [Except.ok.injEq] at h2
    subst h2
    rw [hos] at h4
    dsimp only [Option.orElse] at h4
    simp only [Except.ok.injEq] at h4
    subst h4
    have hsec1 : ent1.storage_section_id = ent.storage_section_id := by
      rw [← hent]; simp [huss]
    cases huii : ud.item_id with
    | none =>
      rw [huii] at h1
      dsimp only at h1
      simp only [Except.ok.injEq] at h1
      subst h1
      rw [if_pos rfl] at h5
      dsimp only [Option.orElse] at h5
      cases hoi : db.items.find? (fun i => i.id == ent.item_id) with
      | none => rw [hoi] at h5; exact absurd h5 (by simp)
      | some oi =>
      rw [hoi] at h5
      dsimp only at h5
      rw [if_neg (by simp)] at h5
      simp only [Except.ok.injEq] at h5
      subst h5
      refine ⟨hsec1, ?_⟩
      rw [← hent]
      simp only [unitFootprint, huii, Option.getD_none]
    | some nid =>
      rw [huii] at h1
      dsimp only at h1
      cases hfni : db.items.find? (fun i => i.id == nid) with
      | none => rw [hfni] at h1; exact absurd h1 (by simp)
      | some ni =>
      rw [hfni] at h1
      dsimp only at h1
      by_cases hty : ni.item_type ≠ exp
      · rw [if_pos hty] at h1; exact absurd h1 (by simp)
      rw [if_neg hty] at h1
      simp only [Except.ok.injEq] at h1
      subst h1
      have hniid : ni.id = nid :=
        find?_key_eq (fun i => i.id) nid db.items ni hfni
      rw [if_pos rfl] at h5
      dsimp only [Option.orElse] at h5
      cases hoi : db.items.find? (fun i => i.id == ent.item_id) with
      | none => rw [hoi] at h5; exact absurd h5 (by simp)
      | some oi =>
      rw [hoi] at h5
      dsimp only at h5
      have hoiid : oi.id = ent.item_id :=
        find?_key_eq (fun i => i.id) ent.item_id db.items oi hoi
      have hfpe : unitFootprint db.items ent = oi.unit := by
        unfold unitFootprint; rw [hoi]
      have hfpe1 : unitFootprint db.items ent1 = ni.unit := by
        unfold unitFootprint
        rw [← hent]
        simp [huii, hfni]
      by_cases hdiff : oi.id ≠ ni.id
      · rw [if_pos hdiff] at h5
        by_cases hcap : osec.used_units + (ni.unit - oi.unit) > osec.total_units
        · rw [if_pos hcap] at h5; exact absurd h5 (by simp)
        rw [if_neg hcap] at h5
        simp only [Except.ok.injEq] at h5
        subst h5
        refine ⟨hosid, hsec1, by omega, osec, ?_, by omega⟩
        rw [hosid]
        exact hos
      · rw [if_neg hdiff] at h5
        simp only [Except.ok.injEq] at h5
        subst h5
        have hid : nid = ent.item_id := by
          have := not_not.mp hdiff
          rw [← hniid, ← this, hoiid]
        refine ⟨hsec1, ?_⟩
        rw [hfpe1, hfpe]
        have : ni = oi := by
          rw [hid] at hfni
          rw [hfni] at hoi
          exact (Option.some.injEq _ _).mp hoi
        rw [this]
  | some nsid =>
    rw [huss] at h2
    dsimp only at h2
    cases hfns : db.sections.find? (fun se => se.id == nsid) with
    | none => rw [hfns] at h2; exact absurd h2 (by simp)
    | some s1 =>
    rw [hfns] at h2
    dsimp only at h2
    simp only [Except.ok.injEq] at h2
    subst h2
    dsimp only [Option.orElse] at h4
    simp only [Except.ok.injEq] at h4
    subst h4
    have hnsid : s1.id = nsid :=
      find?_key_eq (fun se => se.id) nsid db.sections s1 hfns
    have hsec1 : ent1.storage_section_id = nsid := by
      rw [← hent]; simp [huss]
    cases huii : ud.item_id with
    | none =>
      rw [huii] at h1
      dsimp only at h1
      simp only [Except.ok.injEq] at h1
      subst h1
      dsimp only [Option.orElse] at h5
      cases hoi : db.items.find? (fun i => i.id == ent.item_id) with
      | none =>
        rw [hoi] at h5
        by_cases hss : osec.id = s1.id
        · rw [if_pos hss] at h5; exact absurd h5 (by simp)
        · rw [if_neg hss] at h5; exact absurd h5 (by simp)
      | some oi =>
      rw [hoi] at h5
      dsimp only at h5
      have hfpe : unitFootprint db.items ent = oi.unit := by
        unfold unitFootprint; rw [hoi]
      have hfpe1 : unitFootprint db.items ent1 = oi.unit := by
        unfold unitFootprint
        rw [← hent]
        simp [huii, hoi]
      by_cases hss : osec.id = s1.id
      · rw [if_pos hss] at h5
        rw [if_neg (by simp)] at h5
        simp only [Except.ok.injEq] at h5
        subst h5
        refine ⟨?_, ?_⟩
        · rw [hsec1, ← hnsid, ← hss, hosid]
        · rw [hfpe1, hfpe]
      · rw [if_neg hss] at h5
        by_cases hcap : s1.used_units + oi.unit > s1.total_units
        · rw [if_pos hcap] at h5; exact absurd h5 (by simp)
        rw [if_neg hcap] at h5
        simp only [Except.ok.injEq] at h5
        subst h5
        refine ⟨hosid, by rw [hsec1, hnsid], ?_, by rw [hfpe], by rw [hfpe1], s1, ?_, by omega⟩
        · exact hss
        · rw [hnsid]
          exact hfns
    | some nid =>
      rw [huii] at h1
      dsimp only at h1
      cases hfni : db.items.find? (fun i => i.id == nid) with
      | none => rw [hfni] at h1; exact absurd h1 (by simp)
      | some ni =>
      rw [hfni] at h1
      dsimp only at h1
      by_cases hty : ni.item_type ≠ exp
      · rw [if_pos hty] at h1; exact absurd h1 (by simp)
      rw [if_neg hty] at h1
      simp only [Except.ok.injEq] at h1
      subst h1
      have hniid : ni.id = nid :=
        find?_key_eq (fun i => i.id) nid db.items ni hfni
      dsimp only [Option.orElse] at h5
      cases hoi : db.items.find? (fun i => i.id == ent.item_id) with
      | none =>
        rw [hoi] at h5
        by_cases hss : osec.id = s1.id
        · rw [if_pos hss] at h5
          dsimp only at h5
          exact absurd h5 (by simp)
        · rw [if_neg hss] at h5
          dsimp only at h5
          exact absurd h5 (by simp)
      | some oi =>
      rw [hoi] at h5
      dsimp only at h5
      have hoiid : oi.id = ent.item_id :=
        find?_key_eq (fun i => i.id) ent.item_id db.items oi hoi
      have hfpe : unitFootprint db.items ent = oi.unit := by
        unfold unitFootprint; rw [hoi]
      have hfpe1 : unitFootprint db.items ent1 = ni.unit := by
        unfold unitFootprint
        rw [← hent]
        simp [huii, hfni]
      by_cases hss : osec.id = s1.id
      · rw [if_pos hss] at h5
        by_cases hdiff : oi.id ≠ ni.id
        · rw [if_pos hdiff] at h5
          by_cases hcap : osec.used_units + (ni.unit - oi.unit) > osec.total_units
          · rw [if_pos hcap] at h5; exact absurd h5 (by simp)
          rw [if_neg hcap] at h5
          simp only [Except.ok.injEq] at h5
          subst h5
          refine ⟨hosid, ?_, by omega, osec, ?_, by omega⟩
          · rw [hsec1, ← hnsid, ← hss, hosid]
          · rw [hosid]
            exact hos
        · rw [if_neg hdiff] at h5
          simp only [Except.ok.injEq] at h5
          subst h5
          have hid : nid = ent.item_id := by
            have := not_not.mp hdiff
            rw [← hniid, ← this, hoiid]
          refine ⟨?_, ?_⟩
          · rw [hsec1, ← hnsid, ← hss, hosid]
          · rw [hfpe1, hfpe]
            have : ni = oi := by
              rw [hid] at hfni
              rw [hfni] at hoi
              exact (Option.some.injEq _ _).mp hoi
            rw [this]
      · rw [if_neg hss] at h5
        by_cases hcap : s1.used_units + ni.unit > s1.total_units
        · rw [if_pos hcap] at h5; exact absurd h5 (by simp)
        rw [if_neg hcap] at h5
        simp only [Except.ok.injEq] at h5
        subst h5
        refine ⟨hosid, by rw [hsec1, hnsid], ?_, by rw [hfpe], by rw [hfpe1], s1, ?_, by omega⟩
        · exact hss
        · rw [hnsid]
          exact hfns

/-- Updating a found unit row with a `SecChangesOk` change list preserves the
capacity-ledger invariant. -/
theorem capinv_of_update (db db1 : Db) (h : CapInv db) (pred : UnitRow → Bool)
    (ent ent1 : UnitRow) (sc : List (String × ℤ))
    (hfind : db.units.find? pred = some ent)
    (hok : SecChangesOk db.items db.sections ent ent1 sc)
    (hi : db1.items = db.items)
    (hs : db1.sections = applySecChanges db.sections sc)
    (hu : db1.units = modifyHead pred (fun _ => ent1) db.units) : CapInv db1 := by
  obtain ⟨hA, hB, hC⟩ := h
  refine ⟨by rw [hi]; exact hA, ?_, ?_⟩
  · rw [hs, applySecChanges_ids _ _ hB]
    exact hB
  · rw [hi, hs, hu]
    exact capinv_applySecChanges db.items db.sections db.units pred ent ent1 sc
      hA hB hC hfind hok

/-- Inserting a unit whose section was found and capacity-checked preserves
the capacity-ledger invariant. -/
theorem capinv_of_create (db db1 : Db) (h : CapInv db) (entity : UnitRow)
    (item : ItemRow) (sec : SectionRow)
    (hitem : db.items.find? (fun i => i.id == entity.item_id) = some item)
    (hsec : db.sections.find? (fun se => se.id == entity.storage_section_id) = some sec)
    (hcap : sec.used_units + item.unit ≤ sec.total_units)
    (hi : db1.items = db.items)
    (hu : db1.units = db.units ++ [entity])
    (hs : db1.sections = modifyHead (fun se => se.id == entity.storage_section_id)
        (fun se => { se with used_units := se.used_units + item.unit }) db.sections) :
    CapInv db1 := by
  obtain ⟨hA, hB, hC⟩ := h
  have hs2 : db1.sections =
      applySecChanges db.sections [(entity.storage_section_id, item.unit)] := by
    rw [hs]; rfl
  refine ⟨by rw [hi]; exact hA, ?_, ?_⟩
  · rw [hs2, applySecChanges_ids _ _ hB]
    exact hB
  · rw [hi, hs2, hu, applySecChanges_eq_map _ _ hB]
    intro s' hs'
    obtain ⟨s, hsmem, rfl⟩ := List.mem_map.mp hs'
    obtain ⟨hload, hle⟩ := hC s hsmem
    dsimp only
    rw [sectionLoad_append, sectionLoad_cons, sectionLoad_nil]
    simp only [secDelta_cons, secDelta_nil, add_zero]
    have hfp : unitFootprint db.items entity = item.unit := by
      unfold unitFootprint; rw [hitem]
    by_cases hx : entity.storage_section_id = s.id
    · have hsos : s = sec :=
        mem_eq_of_find?_nodup db.sections entity.storage_section_id sec s hB hsec
          hsmem hx.symm
      have h1 : (entity.storage_section_id == s.id) = true := by
        rw [hx]; exact beq_self_eq_true s.id
      rw [h1, if_pos rfl, if_pos rfl, hfp]
      subst hsos
      exact ⟨by omega, by omega⟩
    · have h1 : (entity.storage_section_id == s.id) = false := beq_eq_false_iff_ne.mpr hx
      rw [h1, if_neg (by simp), if_neg (by simp)]
      exact ⟨by omega, by omega⟩

/-- Deleting a found unit row whose owning item resolves, subtracting its
footprint from its section, preserves the capacity-ledger invariant. -/
theorem capinv_of_delete (db db1 : Db) (h : CapInv db) (pred : UnitRow → Bool)
    (ent : UnitRow) (item : ItemRow)
    (hfind : db.units.find? pred = some ent)
    (hitem : db.items.find? (fun i => i.id == ent.item_id) = some item)
    (hi : db1.items = db.items)
    (hu : db1.units = db.units.eraseP pred)
    (hs : db1.sections = modifyHead (fun se => se.id == ent.storage_section_id)
        (fun se => { se with used_units := se.used_units - item.unit }) db.sections) :
    CapInv db1 := by
  obtain ⟨hA, hB, hC⟩ := h
  obtain ⟨l1, l2, hdecomp, -, -, herase⟩ := find?_decomp pred db.units ent hfind
  have hfp : unitFootprint db.items ent = item.unit := by
    unfold unitFootprint; rw [hitem]
  have hunit0 : 0 ≤ item.unit := hA item (List.mem_of_find?_eq_some hitem)
  have hmap := modifyHead_eq_map (fun se => se.id == ent.storage_section_id)
    (fun se => { se with used_units := se.used_units - item.unit }) db.sections
    (filter_id_length_le_one db.sections hB ent.storage_section_id)
  refine ⟨by rw [hi]; exact hA, ?_, ?_⟩
  · rw [hs, modifyHead_map_key (fun se => se.id)
      (fun se => se.id == ent.storage_section_id)
      (fun se => { se with used_units := se.used_units - item.unit })
      (fun a => rfl) db.sections]
    exact hB
  · rw [hi, hs, hu, herase, hmap]
    intro s' hs'
    obtain ⟨s, hsmem, rfl⟩ := List.mem_map.mp hs'
    dsimp only
    obtain ⟨hload, hle⟩ := hC s hsmem
    rw [hdecomp, sectionLoad_append, sectionLoad_cons] at hload
    by_cases hx : s.id = ent.storage_section_id
    · have h1 : (ent.storage_section_id == s.id) = true := by
        rw [hx]; exact beq_self_eq_true _
      have h2 : (s.id == ent.storage_section_id) = true := by
        rw [hx]; exact beq_self_eq_true _
      rw [h1, if_pos rfl, hfp] at hload
      rw [h2, if_pos rfl]
      dsimp only
      rw [sectionLoad_append]
      exact ⟨by omega, by omega⟩
    · have h1 : (ent.storage_section_id == s.id) = false := by
        refine beq_eq_false_iff_ne.mpr ?_
        exact fun he => hx he.symm
      have h2 : (s.id == ent.storage_section_id) = false := beq_eq_false_iff_ne.mpr hx
      rw [h1, if_neg (by simp)] at hload
      rw [h2, if_neg (by simp)]
      rw [sectionLoad_append]
      exact ⟨by omega, by omega⟩

/-- Deleting a found unit row without touching the sections (the owning item
or the section did not resolve) preserves the capacity-ledger invariant. -/
theorem capinv_of_delete_nochange (db db1 : Db) (h : CapInv db) (pred : UnitRow → Bool)
    (ent : UnitRow)
    (hfind : db.units.find? pred = some ent)
    (hi : db1.items = db.items)
    (hu : db1.units = db.units.eraseP pred)
    (hs : db1.sections = db.sections) : CapInv db1 := by
  obtain ⟨hA, hB, hC⟩ := h
  obtain ⟨l1, l2, hdecomp, -, -, herase⟩ := find?_decomp pred db.units ent hfind
  have hfp0 : 0 ≤ unitFootprint db.items ent := unitFootprint_nonneg db.items ent hA
  refine ⟨by rw [hi]; exact hA, by rw [hs]; exact hB, ?_⟩
  rw [hi, hs, hu, herase]
  intro s hsmem
  obtain ⟨hload, hle⟩ := hC s hsmem
  rw [hdecomp, sectionLoad_append, sectionLoad_cons] at hload
  rw [sectionLoad_append]
  by_cases h1 : (ent.storage_section_id == s.id) = true
  · rw [h1, if_pos rfl] at hload
    exact ⟨by omega, hle⟩
  · have h1f : (ent.storage_section_id == s.id) = false := by simpa using h1
    rw [h1f, if_neg (by simp)] at hload
    exact ⟨by omega, hle⟩

/-- A successful generic create validated the item, the section capacity and
the tag, inserted the unit row, and reserved `item.unit` in the section. -/
theorem create_entity_ok_inv (db : Db) (entity : UnitRow) (exp : ItemType) (db1 : Db)
    (h : create_entity_with_rfid_and_storage db entity exp = .ok db1) :
    ∃ item sec, db.items.find? (fun i => i.id == entity.item_id) = some item ∧
      db.sections.find? (fun se => se.id == entity.storage_section_id) = some sec ∧
      sec.used_units + item.unit ≤ sec.total_units ∧
      db1.items = db.items ∧
      db1.units = db.units ++ [entity] ∧
      db1.sections = modifyHead (fun se => se.id == entity.storage_section_id)
        (fun se => { se with used_units := se.used_units + item.unit }) db.sections := by
  unfold create_entity_with_rfid_and_storage at h
  cases h1 : db.items.find? (fun i => i.id == entity.item_id) with
  | none => rw [h1] at h; exact absurd h (by simp)
  | some item =>
  rw [h1] at h
  dsimp only at h
  by_cases h2 : item.item_type ≠ exp
  · rw [if_pos h2] at h; exact absurd h (by simp)
  rw [if_neg h2] at h
  cases h3 : db.sections.find? (fun se => se.id == entity.storage_section_id) with
  | none => rw [h3] at h; exact absurd h (by simp)
  | some sec =>
  rw [h3] at h
  dsimp only at h
  by_cases h4 : sec.used_units + item.unit > sec.total_units
  · rw [if_pos h4] at h; exact absurd h (by simp)
  rw [if_neg h4] at h
  cases h5 : db.tags.find? (fun t => t.id == entity.rfid_tag_id) with
  | none => rw [h5] at h; exact absurd h (by simp)
  | some tag =>
  rw [h5] at h
  dsimp only at h
  by_cases h6 : tag.assigned
  · rw [if_pos h6] at h; exact absurd h (by simp)
  rw [if_neg h6] at h
  simp only [Except.ok.injEq] at h
  subst h
  exact ⟨item, sec, rfl, rfl, by omega, rfl, rfl, rfl⟩

/-- A successful generic delete found the row, removed it, released the
reserved units when the owning item resolved, and left the sections alone
otherwise. -/
theorem delete_entity_inv (db : Db) (ut : ItemType) (eid : String)
    (db1 : Db) (e : UnitRow)
    (h : delete_entity_with_rfid_and_storage db ut eid = some (db1, e)) :
    ∃ ent, db.units.find? (fun u => u.utype == ut && u.id == eid) = some ent ∧
      e = ent ∧
      db1.items = db.items ∧
      db1.units = db.units.eraseP (fun u => u.utype == ut && u.id == eid) ∧
      ((∃ item, db.items.find? (fun i => i.id == ent.item_id) = some item ∧
          db1.sections = modifyHead (fun se => se.id == ent.storage_section_id)
            (fun se => { se with used_units := se.used_units + -item.unit })
            db.sections) ∨
        db.items.find? (fun i => i.id == ent.item_id) = none ∧
          db1.sections = db.sections) := by
  unfold delete_entity_with_rfid_and_storage at h
  cases hfind : db.units.find? (fun u => u.utype == ut && u.id == eid) with
  | none => rw [hfind] at h; exact absurd h (by simp)
  | some ent =>
  rw [hfind] at h
  dsimp only at h
  cases hitem : db.items.find? (fun i => i.id == ent.item_id) with
  | some item =>
    rw [hitem] at h
    dsimp only [update_storage_section_units] at h
    simp only [Option.some.injEq, Prod.mk.injEq] at h
    obtain ⟨hdb, he⟩ := h
    subst hdb
    exact ⟨ent, rfl, he.symm, rfl, rfl, Or.inl ⟨item, hitem, rfl⟩⟩
  | none =>
    rw [hitem] at h
    dsimp only at h
    simp only [Option.some.injEq, Prod.mk.injEq] at h
    obtain ⟨hdb, he⟩ := h
    subst hdb
    exact ⟨ent, rfl, he.symm, rfl, rfl, Or.inr ⟨hitem, rfl⟩⟩

/-- The released-units lambda written with subtraction. -/
theorem secSub_eq (u : ℤ) :
    (fun se : SectionRow => { se with used_units := se.used_units + -u }) =
      (fun se : SectionRow => { se with used_units := se.used_units - u }) :=
  funext fun se => by rw [sub_eq_add_neg]

/-- Every reserve/release operation preserves the capacity-ledger invariant. -/
theorem capinv_runCapOp (db : Db) (h : CapInv db) (op : CapOp) :
    CapInv (runCapOp db op) := by
  cases op with
  | createP p =>
    dsimp only [runCapOp]
    cases hcp : create_partition db p with
    | error e => exact h
    | ok db' =>
    dsimp only
    unfold create_partition at hcp
    cases h1 : db.items.find? (fun i => i.id == p.item_id) with
    | none => rw [h1] at hcp; exact absurd hcp (by simp)
    | some item =>
    rw [h1] at hcp
    dsimp only at hcp
    cases h2 : db.sections.find? (fun se => se.id == p.storage_section_id) with
    | none => rw [h2] at hcp; exact absurd hcp (by simp)
    | some sec =>
    rw [h2] at hcp
    dsimp only at hcp
    cases h3 : db.tags.find? (fun t => t.id == p.rfid_tag_id) with
    | none => rw [h3] at hcp; exact absurd hcp (by simp)
    | some tag =>
    rw [h3] at hcp
    dsimp only at hcp
    by_cases h4 : tag.assigned
    · rw [if_pos h4] at hcp; exact absurd hcp (by simp)
    rw [if_neg h4] at hcp
    by_cases h5 : sec.used_units + item.unit > sec.total_units
    · rw [if_pos h5] at hcp; exact absurd hcp (by simp)
    rw [if_neg h5] at hcp
    simp only [Except.ok.injEq] at hcp
    subst hcp
    exact capinv_of_create db _ h
      { id := p.new_id, utype := ItemType.partition, item_id := p.item_id,
        storage_section_id := p.storage_section_id, rfid_tag_id := p.rfid_tag_id,
        quantity := some 0, capacity := some p.capacity, items_weight := none,
        ustatus := UnitStatus.available }
      item sec h1 h2 (by omega) rfl rfl rfl
  | deleteP id =>
    dsimp only [runCapOp]
    cases hdp : delete_partition db id with
    | none => exact h
    | some pr =>
    obtain ⟨db', e⟩ := pr
    dsimp only
    unfold delete_partition at hdp
    cases hfind : db.units.find? (fun u => u.utype == ItemType.partition && u.id == id) with
    | none => rw [hfind] at hdp; exact absurd hdp (by simp)
    | some ent =>
    rw [hfind] at hdp
    dsimp only at hdp
    cases hfs : db.sections.find? (fun se => se.id == ent.storage_section_id) with
    | none =>
      rw [hfs] at hdp
      dsimp only at hdp
      simp only [Option.some.injEq, Prod.mk.injEq] at hdp
      obtain ⟨hdb, he⟩ := hdp
      subst hdb
      exact capinv_of_delete_nochange db _ h _ ent hfind rfl rfl rfl
    | some s0 =>
    rw [hfs] at hdp
    dsimp only at hdp
    cases hfi : db.items.find? (fun i => i.id == ent.item_id) with
    | none =>
      rw [hfi] at hdp
      dsimp only at hdp
      simp only [Option.some.injEq, Prod.mk.injEq] at hdp
      obtain ⟨hdb, he⟩ := hdp
      subst hdb
      exact capinv_of_delete_nochange db _ h _ ent hfind rfl rfl rfl
    | some item =>
      rw [hfi] at hdp
      dsimp only at hdp
      simp only [Option.some.injEq, Prod.mk.injEq] at hdp
      obtain ⟨hdb, he⟩ := hdp
      subst hdb
      exact capinv_of_delete db _ h _ ent item hfind hfi rfl rfl rfl
  | moveP id ns r q st =>
    dsimp only [runCapOp]
    cases hup : update_partition db id
        { item_id := none, storage_section_id := ns, rfid_tag_id := r
          quantity := q, ustatus := st } with
    | error e => exact h
    | ok o =>
    cases o with
    | none => exact h
    | some pr =>
    obtain ⟨db', e⟩ := pr
    dsimp only
    obtain ⟨ent, sc, hfind, hok, hi, hs, hu⟩ :=
      update_partition_cap_inv db id ns r q st db' e hup
    exact capinv_of_update db db' h _ ent e sc hfind hok hi hs hu
  | createC p =>
    dsimp only [runCapOp]
    cases hcc : create_container db p with
    | error e => exact h
    | ok db' =>
    dsimp only
    unfold create_container at hcc
    dsimp only at hcc
    split at hcc
    · exact absurd hcc (by simp)
    · rename_i db1 heq
      simp only [Except.ok.injEq] at hcc
      subst hcc
      obtain ⟨item, sec, h1, h2, h3, h4, h5, h6⟩ := create_entity_ok_inv db _ _ db1 heq
      refine capinv_of_create db _ h _ item sec h1 h2 h3 ?_ ?_ ?_
      · rw [update_container_status_items, h4]
      · rw [update_container_status_units, h5]
      · rw [update_container_status_sections, h6]
  | deleteC id =>
    dsimp only [runCapOp]
    cases hdc : delete_container db id with
    | none => exact h
    | some db' =>
    dsimp only [Option.getD]
    unfold delete_container at hdc
    dsimp only at hdc
    split at hdc
    · exact absurd hdc (by simp)
    · rename_i pr db1 x heq
      obtain ⟨ent, hfind, he, hi, hu, hsec⟩ := delete_entity_inv db _ _ db1 x heq
      rw [hfind] at hdc
      dsimp only at hdc
      simp only [Option.some.injEq] at hdc
      subst hdc
      rcases hsec with ⟨item, hitem, hs⟩ | ⟨hitem, hs⟩
      · rw [secSub_eq] at hs
        refine capinv_of_delete db _ h _ ent item hfind hitem ?_ ?_ ?_
        · rw [update_container_status_items, hi]
        · rw [update_container_status_units, hu]
        · rw [update_container_status_sections, hs]
      · refine capinv_of_delete_nochange db _ h _ ent hfind ?_ ?_ ?_
        · rw [update_container_status_items, hi]
        · rw [update_container_status_units, hu]
        · rw [update_container_status_sections, hs]
  | updateC id p =>
    dsimp only [runCapOp]
    cases huc : update_container db id p with
    | error e => exact h
    | ok o =>
    cases o with
    | none => exact h
    | some db' =>
    dsimp only
    unfold update_container at huc
    dsimp only at huc
    split at huc
    · exact absurd huc (by simp)
    · exact absurd huc (by simp)
    · rename_i db1 ent1 heq
      simp only [Except.ok.injEq, Option.some.injEq] at huc
      subst huc
      obtain ⟨ent, sc, hfind, hok, hi, hs, hu⟩ :=
        update_entity_cap_inv db _ _ _ _ db1 ent1 heq
      refine capinv_of_update db _ h _ ent ent1 sc hfind hok ?_ ?_ ?_
      · rw [update_container_status_items, hi]
      · rw [update_container_status_sections, hs]
      · rw [update_container_status_units, hu]
  | createL p =>
    dsimp only [runCapOp]
    cases hcl : create_large_item db p with
    | error e => exact h
    | ok db' =>
    dsimp only
    unfold create_large_item at hcl
    dsimp only at hcl
    split at hcl
    · exact absurd hcl (by simp)
    · rename_i db1 heq
      simp only [Except.ok.injEq] at hcl
      subst hcl
      obtain ⟨item, sec, h1, h2, h3, h4, h5, h6⟩ := create_entity_ok_inv db _ _ db1 heq
      refine capinv_of_create db _ h _ item sec h1 h2 h3 ?_ ?_ ?_
      · rw [update_largeitem_status_items, h4]
      · rw [update_largeitem_status_units, h5]
      · rw [update_largeitem_status_sections, h6]
  | deleteL id =>
    dsimp only [runCapOp]
    cases hdl : delete_large_item db id with
    | none => exact h
    | some db' =>
    dsimp only [Option.getD]
    unfold delete_large_item at hdl
    dsimp only at hdl
    split at hdl
    · exact absurd hdl (by simp)
    · rename_i pr db1 x heq
      obtain ⟨ent, hfind, he, hi, hu, hsec⟩ := delete_entity_inv db _ _ db1 x heq
      rw [hfind] at hdl
      dsimp only at hdl
      simp only [Option.some.injEq] at hdl
      subst hdl
      rcases hsec with ⟨item, hitem, hs⟩ | ⟨hitem, hs⟩
      · rw [secSub_eq] at hs
        refine capinv_of_delete db _ h _ ent item hfind hitem ?_ ?_ ?_
        · rw [update_largeitem_status_items, hi]
        · rw [update_largeitem_status_units, hu]
        · rw [update_largeitem_status_sections, hs]
      · refine capinv_of_delete_nochange db _ h _ ent hfind ?_ ?_ ?_
        · rw [update_largeitem_status_items, hi]
        · rw [update_largeitem_status_units, hu]
        · rw [update_largeitem_status_sections, hs]
  | updateL id p =>
    dsimp only [runCapOp]
    cases hul : update_large_item db id p with
    | error e => exact h
    | ok o =>
    cases o with
    | none => exact h
    | some db' =>
    dsimp only
    unfold update_large_item at hul
    dsimp only at hul
    split at hul
    · exact absurd hul (by simp)
    · exact absurd hul (by simp)
    · rename_i db1 ent1 heq
      simp only [Except.ok.injEq, Option.some.injEq] at hul
      subst hul
      obtain ⟨ent, sc, hfind, hok, hi, hs, hu⟩ :=
        update_entity_cap_inv db _ _ _ _ db1 ent1 heq
      refine capinv_of_update db _ h _ ent ent1 sc hfind hok ?_ ?_ ?_
      · rw [update_largeitem_status_items, hi]
      · rw [update_largeitem_status_sections, hs]
      · rw [update_largeitem_status_units, hu]

theorem mem_modifyHead {α : Type} (p : α → Bool) (f : α → α) (l : List α) (x : α)
    (hx : x ∈ modifyHead p f l) : x ∈ l ∨ ∃ a ∈ l, x = f a := by
  induction l with
  | nil => simp [modifyHead_nil] at hx
  | cons a as ih =>
    rw [modifyHead_cons] at hx
    by_cases hpa : p a
    · rw [if_pos hpa] at hx
      rcases List.mem_cons.mp hx with rfl | hmem
      · exact Or.inr ⟨a, List.mem_cons_self a as, rfl⟩
      · exact Or.inl (List.mem_cons_of_mem a hmem)
    · rw [if_neg hpa] at hx
      rcases List.mem_cons.mp hx with rfl | hmem
      · exact Or.inl (List.mem_cons_self x as)
      · rcases ih hmem with h1 | ⟨b, hb, rfl⟩
        · exact Or.inl (List.mem_cons_of_mem a h1)
        · exact Or.inr ⟨b, List.mem_cons_of_mem a hb, rfl⟩

/-- Any sequence of reserve/release operations preserves the invariant. -/
theorem capinv_runCapOps (db : Db) (h : CapInv db) (ops : List CapOp) :
    CapInv (runCapOps db ops) := by
  induction ops generalizing db with
  | nil => exact h
  | cons op ops ih =>
    simp only [runCapOps, List.foldl_cons]
    exact ih (runCapOp db op) (capinv_runCapOp db h op)

/-- C8: starting from a well-formed committed state (item footprints
non-negative, section ids unique, and every section's `used_units` between
its resident load and `total_units`), after every prefix of every sequence
of reserve/release operations (unit creation, deletion and section moves)
each section satisfies `0 ≤ used_units ≤ total_units` — `used_units` never
goes negative and a successful reserve never exceeds `total_units`; and the
explicit release endpoint `remove_units_from_section` is clamped at zero. -/
theorem capacity_ledger_safe (db : Db) (h : CapInv db) (ops : List CapOp) :
    (∀ pre, pre <+: ops →
      ∀ s ∈ (runCapOps db pre).sections,
        0 ≤ s.used_units ∧ s.used_units ≤ s.total_units) ∧
    (∀ (db2 : Db) (sid : String) (n : ℤ),
      (∀ s ∈ db2.sections, 0 ≤ s.used_units) →
      ∀ s ∈ (remove_units_from_section db2 sid n).sections, 0 ≤ s.used_units) := by
  constructor
  · intro pre hpre s hs
    obtain ⟨hA, hB, hC⟩ := capinv_runCapOps db h pre
    obtain ⟨hload, hle⟩ := hC s hs
    have h0 : 0 ≤ sectionLoad (runCapOps db pre).items (runCapOps db pre).units s.id :=
      sectionLoad_nonneg _ _ _ hA
    exact ⟨by omega, hle⟩
  · intro db2 sid n h0 s hs
    unfold remove_units_from_section at hs
    dsimp only at hs
    rcases mem_modifyHead (fun se => se.id == sid)
        (fun se => { se with used_units := max 0 (se.used_units - n) })
        db2.sections s hs with hmem | ⟨a, ha, rfl⟩
    · exact h0 s hmem
    · exact le_max_left 0 _

theorem capacity_ledger_safe_witness :
    CapInv exCapDb ∧
    ((∀ pre, pre <+: exCapOps →
      ∀ s ∈ (runCapOps exCapDb pre).sections,
        0 ≤ s.used_units ∧ s.used_units ≤ s.total_units) ∧
    (∀ (db2 : Db) (sid : String) (n : ℤ),
      (∀ s ∈ db2.sections, 0 ≤ s.used_units) →
      ∀ s ∈ (remove_units_from_section db2 sid n).sections, 0 ≤ s.used_units)) :=
  ⟨by unfold CapInv; decide, capacity_ledger_safe exCapDb (by unfold CapInv; decide) exCapOps⟩

end Inventory

namespace Inventory

theorem dayNumber_day_le (y m d1 d2 : ℤ) (h : d1 ≤ d2) :
    dayNumber ⟨y, m, d1⟩ ≤ dayNumber ⟨y, m, d2⟩ := by
  unfold dayNumber
  dsimp only
  omega

theorem daysInMonth_pos (y m : ℤ) : 1 ≤ daysInMonth y m := by
  unfold daysInMonth
  split
  · split <;> omega
  · split <;> omega

theorem month_end_succ (y m : ℤ) (h1 : 1 ≤ m) (h2 : m ≤ 12) :
    dayNumber ⟨y, m, daysInMonth y m⟩ + 1 =
      if m = 12 then dayNumber ⟨y + 1, 1, 1⟩ else dayNumber ⟨y, m + 1, 1⟩ := by
  unfold dayNumber daysInMonth isLeap
  interval_cases m <;> simp_all <;> (try split_ifs <;> simp_all) <;> omega

theorem month_end_mono_step (yr t : ℤ) :
    dayNumber ⟨yr + t / 12, t % 12 + 1, daysInMonth (yr + t / 12) (t % 12 + 1)⟩ <
      dayNumber ⟨yr + (t + 1) / 12, (t + 1) % 12 + 1,
        daysInMonth (yr + (t + 1) / 12) ((t + 1) % 12 + 1)⟩ := by
  have hm1 : 1 ≤ t % 12 + 1 := by omega
  have hm2 : t % 12 + 1 ≤ 12 := by omega
  have hsucc := month_end_succ (yr + t / 12) (t % 12 + 1) hm1 hm2
  by_cases h12 : t % 12 + 1 = 12
  · rw [if_pos h12] at hsucc
    have hy : yr + (t + 1) / 12 = yr + t / 12 + 1 := by omega
    have hmn : (t + 1) % 12 + 1 = 1 := by omega
    rw [hy, hmn]
    calc dayNumber ⟨yr + t / 12, t % 12 + 1, daysInMonth (yr + t / 12) (t % 12 + 1)⟩ <
          dayNumber ⟨yr + t / 12 + 1, 1, 1⟩ := by omega
      _ ≤ dayNumber ⟨yr + t / 12 + 1, 1, daysInMonth (yr + t / 12 + 1) 1⟩ :=
          dayNumber_day_le _ _ _ _ (daysInMonth_pos _ _)
  · rw [if_neg h12] at hsucc
    have hy : yr + (t + 1) / 12 = yr + t / 12 := by omega
    have hmn : (t + 1) % 12 + 1 = t % 12 + 1 + 1 := by omega
    rw [hy, hmn]
    calc dayNumber ⟨yr + t / 12, t % 12 + 1, daysInMonth (yr + t / 12) (t % 12 + 1)⟩ <
          dayNumber ⟨yr + t / 12, t % 12 + 1 + 1, 1⟩ := by omega
      _ ≤ dayNumber ⟨yr + t / 12, t % 12 + 1 + 1,
            daysInMonth (yr + t / 12) (t % 12 + 1 + 1)⟩ :=
          dayNumber_day_le _ _ _ _ (daysInMonth_pos _ _)

theorem period_end_day_mono (g : Granularity) (s : Date)
    (hs : 1 ≤ s.month ∧ s.month ≤ 12) (k1 k2 : ℕ) (h : k1 < k2) :
    period_end_day g s k1 < period_end_day g s k2 := by
  cases g with
  | day =>
    unfold period_end_day
    dsimp only
    omega
  | year =>
    unfold period_end_day dayNumber
    norm_num
    omega
  | month =>
    have step : ∀ n : ℕ, period_end_day Granularity.month s n <
        period_end_day Granularity.month s (n + 1) := by
      intro n
      have hstep := month_end_mono_step s.year (s.month - 1 + (n : ℤ))
      unfold period_end_day
      dsimp only
      have hc : ((n + 1 : ℕ) : ℤ) = (n : ℤ) + 1 := by push_cast; ring
      rw [hc, show s.month - 1 + ((n : ℤ) + 1) = s.month - 1 + (n : ℤ) + 1 from by ring]
      exact hstep
    exact strictMono_nat_of_lt_succ step h

theorem bucket_items_mem_iff (hist : List HistRecord) (pend : ℤ) (st : StockStatus)
    (i : String) :
    i ∈ bucket_items hist pend st ↔ spec_counted hist pend i st := by
  unfold bucket_items spec_counted latest_rows
  rw [List.mem_dedup]
  constructor
  · intro hi
    obtain ⟨r, hr, rfl⟩ := List.mem_map.mp hi
    obtain ⟨hrl, hst⟩ := List.mem_filter.mp hr
    obtain ⟨hrh, hcond⟩ := List.mem_filter.mp hrl
    simp only [Bool.and_eq_true, decide_eq_true_eq, List.all_eq_true] at hcond
    obtain ⟨hle, hall⟩ := hcond
    refine ⟨r, hrh, rfl, hle, by simpa using hst, ?_⟩
    intro r2 hr2 hitem hle2
    have h2 := hall r2 hr2
    cases htl : tsLe r2 r with
    | true => rfl
    | false =>
      rw [htl] at h2
      simp only [Bool.or_false, Bool.not_eq_true'] at h2
      rw [hitem] at h2
      simp [hle2] at h2
  · rintro ⟨r, hrh, hitem, hle, hst, hmax⟩
    refine List.mem_map.mpr ⟨r, ?_, hitem⟩
    refine List.mem_filter.mpr ⟨List.mem_filter.mpr ⟨hrh, ?_⟩, by simp [hst]⟩
    simp only [Bool.and_eq_true, decide_eq_true_eq, List.all_eq_true]
    refine ⟨hle, ?_⟩
    intro r2 hr2
    by_cases hc1 : r2.item_id = r.item_id
    · by_cases hc2 : r2.ts_day ≤ pend
      · have := hmax r2 hr2 (hc1.trans hitem) hc2
        simp [this]
      · simp [hc2]
    · simp [hc1]

theorem period_values_keys (hist : List HistRecord) (pend : ℤ) :
    (period_values hist pend).map Prod.fst = ["high", "medium", "low"] := rfl

theorem period_values_lookup (hist : List HistRecord) (pend : ℤ) (st : StockStatus) :
    (period_values hist pend).lookup (statusKey st) =
      some (bucket_items hist pend st).length := by
  cases st <;> rfl

/-- C6: for a valid range and granularity, `aggregate_item_status_history`
returns one entry per period between start and end inclusive (an inverted
range is a validation error), the k-th entry carrying the k-th period's
label with strictly increasing period ends; every entry's values map has
exactly the three status buckets high, medium and low, each defaulting to 0;
and an item is counted in a period's bucket `st` iff its most recent history
snapshot at or before the period's end carries status `st`, so the last
known status carries forward into later periods. -/
theorem aggregate_status_history_spec (hist : List HistRecord) (g : Granularity)
    (s e : Date) (hs : 1 ≤ s.month ∧ s.month ≤ 12) :
    (dayNumber e < dayNumber s →
      aggregate_item_status_history hist g s e = .error CrudError.value_error) ∧
    (dayNumber s ≤ dayNumber e →
      ∃ out, aggregate_item_status_history hist g s e = .ok out ∧
        out.length = num_periods g s e ∧
        (∀ k, (hk : k < out.length) → out.get ⟨k, hk⟩ =
          (period_label g s k, period_values hist (period_end_day g s k))) ∧
        (∀ k, (hk : k < out.length) →
          ((out.get ⟨k, hk⟩).2.map Prod.fst = ["high", "medium", "low"] ∧
           ∀ st : StockStatus, (out.get ⟨k, hk⟩).2.lookup (statusKey st) =
             some (bucket_items hist (period_end_day g s k) st).length)) ∧
        (∀ k1 k2, k1 < k2 → k2 < out.length →
          period_end_day g s k1 < period_end_day g s k2)) ∧
    (∀ pend i st, i ∈ bucket_items hist pend st ↔ spec_counted hist pend i st) := by
  refine ⟨?_, ?_, fun pend i st => bucket_items_mem_iff hist pend st i⟩
  · intro hlt
    unfold aggregate_item_status_history
    rw [if_pos hlt]
  · intro hle
    refine ⟨(List.range (num_periods g s e)).map (fun idx =>
        (period_label g s idx, period_values hist (period_end_day g s idx))),
      ?_, by simp, ?_, ?_, ?_⟩
    · unfold aggregate_item_status_history
      rw [if_neg (not_lt.mpr hle)]
    · intro k hk
      rw [List.get_eq_getElem]
      simp only [List.getElem_map, List.getElem_range]
    · intro k hk
      rw [List.get_eq_getElem]
      simp only [List.getElem_map, List.getElem_range]
      exact ⟨period_values_keys hist _, fun st => period_values_lookup hist _ st⟩
    · intro k1 k2 h12 hk2
      exact period_end_day_mono g s hs k1 k2 h12

theorem aggregate_status_history_spec_witness :
    (1 ≤ exAggStart.month ∧ exAggStart.month ≤ 12) ∧
    ((dayNumber exAggEnd < dayNumber exAggStart →
      aggregate_item_status_history exHist Granularity.month exAggStart exAggEnd =
        .error CrudError.value_error) ∧
    (dayNumber exAggStart ≤ dayNumber exAggEnd →
      ∃ out, aggregate_item_status_history exHist Granularity.month exAggStart exAggEnd =
          .ok out ∧
        out.length = num_periods Granularity.month exAggStart exAggEnd ∧
        (∀ k, (hk : k < out.length) → out.get ⟨k, hk⟩ =
          (period_label Granularity.month exAggStart k,
           period_values exHist (period_end_day Granularity.month exAggStart k))) ∧
        (∀ k, (hk : k < out.length) →
          ((out.get ⟨k, hk⟩).2.map Prod.fst = ["high", "medium", "low"] ∧
           ∀ st : StockStatus, (out.get ⟨k, hk⟩).2.lookup (statusKey st) =
             some (bucket_items exHist
               (period_end_day Granularity.month exAggStart k) st).length)) ∧
        (∀ k1 k2, k1 < k2 → k2 < out.length →
          period_end_day Granularity.month exAggStart k1 <
            period_end_day Granularity.month exAggStart k2)) ∧
    (∀ pend i st, i ∈ bucket_items exHist pend st ↔ spec_counted exHist pend i st)) :=
  ⟨by decide,
   aggregate_status_history_spec exHist Granularity.month exAggStart exAggEnd (by decide)⟩

end Inventory
